import Mathlib

/-!
Verification of the Game Boy emulator core (`src/mem.rs`, `src/instr.rs`,
`src/cpu.rs`) against its natural-language specification.

Machine integers are modelled as `Nat` with explicit `% 2^w` at the points
where the Rust code relies on wrapping; byte arrays are modelled as total
functions `Nat → Nat`.
-/

namespace GBoy

/-- Pointwise update of a byte-array-as-function (`arr[a] = v`). -/
def upd (f : Nat → Nat) (a v : Nat) : Nat → Nat := fun x => if x = a then v else f x

/-! ## `src/mem.rs`: write observer -/

def REGION_TILEDATA_UNSIGNED_BEG : Nat := 0x8000
def REGION_TILEDATA_UNSIGNED_END : Nat := 0x8FFF
def REGION_TILEDATA_SIGNED_BEG   : Nat := 0x8800
def REGION_TILEDATA_SIGNED_END   : Nat := 0x97FF
def REGION_TILEMAP0_BEG          : Nat := 0x9800
def REGION_TILEMAP0_END          : Nat := 0x9BFF
def REGION_TILEMAP1_BEG          : Nat := 0x9C00
def REGION_TILEMAP1_END          : Nat := 0x9FFF

structure WriteObserver where
  td_signed_dirty   : Bool
  td_unsigned_dirty : Bool
  tmap0_dirty       : Bool
  tmap1_dirty       : Bool
deriving DecidableEq

def WriteObserver.new : WriteObserver :=
  { td_signed_dirty := true, td_unsigned_dirty := true,
    tmap0_dirty := true, tmap1_dirty := true }

/-- `WriteObserver::record_write`: the Rust `match` tests the region ranges in
order, first match wins. -/
def WriteObserver.record_write (o : WriteObserver) (addr : Nat) : WriteObserver :=
  if REGION_TILEDATA_UNSIGNED_BEG ≤ addr ∧ addr ≤ REGION_TILEDATA_UNSIGNED_END then
    { o with td_unsigned_dirty := true }
  else if REGION_TILEDATA_SIGNED_BEG ≤ addr ∧ addr ≤ REGION_TILEDATA_SIGNED_END then
    { o with td_signed_dirty := true }
  else if REGION_TILEMAP0_BEG ≤ addr ∧ addr ≤ REGION_TILEMAP0_END then
    { o with tmap0_dirty := true }
  else if REGION_TILEMAP1_BEG ≤ addr ∧ addr ≤ REGION_TILEMAP1_END then
    { o with tmap1_dirty := true }
  else o

/-! ## `src/mem.rs`: address space -/

def IOREG_DIV    : Nat := 0xFF04
def IOREG_LY     : Nat := 0xFF44
def IOREG_DMA    : Nat := 0xFF46
def IOREG_BIOSRW : Nat := 0xFF50

structure AddressSpace where
  bios          : Nat → Nat
  main_ram      : Nat → Nat
  backup_ram    : Nat → Nat
  bios_readable : Bool
  observer      : WriteObserver

def AddressSpace.new : AddressSpace :=
  { bios := fun _ => 0, main_ram := fun _ => 0, backup_ram := fun _ => 0,
    bios_readable := true, observer := WriteObserver.new }

def AddressSpace.read (s : AddressSpace) (addr : Nat) : Nat :=
  if addr < 0x100 ∧ s.bios_readable = true then s.bios addr else s.main_ram addr

def AddressSpace.read_u16 (s : AddressSpace) (addr : Nat) : Nat :=
  s.read addr ||| (s.read ((addr + 1) % 0x10000)) <<< 8

/-- `AddressSpace::sys_write`: notifies the observer, then commits to both
backing copies. -/
def AddressSpace.sys_write (s : AddressSpace) (addr data : Nat) : AddressSpace :=
  { s with observer := s.observer.record_write addr,
           main_ram := upd s.main_ram addr data,
           backup_ram := upd s.backup_ram addr data }

/-- One iteration of the DMA copy loop in the `IOREG_DMA` arm of
`AddressSpace::write`: `main_ram[to+i] = main_ram[from+i]` then
`backup_ram[to+i] = main_ram[from+i]` (direct indexing, not `sys_write`). -/
def AddressSpace.dma_step (s : AddressSpace) (from_addr i : Nat) : AddressSpace :=
  let s1 := { s with main_ram := upd s.main_ram (0xFE00 + i) (s.main_ram (from_addr + i)) }
  { s1 with backup_ram := upd s1.backup_ram (0xFE00 + i) (s1.main_ram (from_addr + i)) }

/-- `AddressSpace::write`: the Rust `match` computes a possibly-redirected
address, a possibly-forced value and an `rw` flag, then calls `sys_write`
iff `rw`; each arm below inlines that. -/
def AddressSpace.write (s : AddressSpace) (addr data : Nat) : AddressSpace :=
  if addr ≤ 0x7FFF then
    -- ROM banks, read only: rw = false
    s
  else if 0xA000 ≤ addr ∧ addr ≤ 0xBFFF then
    s.sys_write addr data
  else if 0xE000 ≤ addr ∧ addr ≤ 0xFDFF then
    -- internal RAM echo: addr -= 0x2000
    s.sys_write (addr - 0x2000) data
  else if addr = IOREG_DIV then
    s.sys_write addr 0
  else if addr = IOREG_LY then
    s.sys_write addr 0
  else if addr = IOREG_DMA then
    -- DMA copy loop, then (rw = true) sys_write of the trigger byte itself
    let from_addr := data <<< 8
    let s1 := (List.range 0x100).foldl (fun t i => t.dma_step from_addr i) s
    s1.sys_write addr data
  else if addr = IOREG_BIOSRW then
    -- rw = false in this arm
    if s.bios_readable = true ∧ data = 1 then { s with bios_readable := false } else s
  else
    s.sys_write addr data

def AddressSpace.write_u16 (s : AddressSpace) (addr data : Nat) : AddressSpace :=
  let lo := data &&& 0xFF
  let hi := (data &&& 0xFF00) >>> 8
  (s.write addr lo).write ((addr + 1) % 0x10000) hi

/-! ## `src/mem.rs`: register file -/

inductive RegFlag
  | Zero
  | Subtract
  | HalfCarry
  | Carry
deriving DecidableEq

inductive Register
  | A | B | C | D | E | F | H | L
  | AF | BC | DE | HL | SP | PC
  | Flag
deriving DecidableEq

/-- The flag-bit mask computed (identically) inside `RegData::set_flag` and
`RegData::get_flag`. -/
def RegFlag.mask : RegFlag → Nat
  | RegFlag.Zero      => 0x80
  | RegFlag.Subtract  => 0x40
  | RegFlag.HalfCarry => 0x20
  | RegFlag.Carry     => 0x10

structure RegData where
  a : Nat
  b : Nat
  c : Nat
  d : Nat
  e : Nat
  f : Nat
  h : Nat
  l : Nat
  sp : Nat
  pc : Nat
  flag : Nat
deriving DecidableEq

def RegData.new : RegData :=
  { a := 0, b := 0, c := 0, d := 0, e := 0, f := 0, h := 0, l := 0,
    sp := 0xFFFE, pc := 0x000, flag := 0 }

/-- `RegData::read`; the source aborts (contract violation) on the 16-bit-only
registers, which no caller in the dispatch exercises — modelled as 0. -/
def RegData.read (r : RegData) (reg : Register) : Nat :=
  match reg with
  | Register.A => r.a
  | Register.B => r.b
  | Register.C => r.c
  | Register.D => r.d
  | Register.E => r.e
  | Register.F => r.f
  | Register.H => r.h
  | Register.L => r.l
  | Register.Flag => r.flag
  | _ => 0

/-- `RegData::read_u16`; the source aborts on 8-bit registers (never exercised
by the dispatch) — modelled as 0. -/
def RegData.read_u16 (r : RegData) (reg : Register) : Nat :=
  match reg with
  | Register.AF => r.a <<< 8 ||| r.f
  | Register.BC => r.b <<< 8 ||| r.c
  | Register.DE => r.d <<< 8 ||| r.e
  | Register.HL => r.h <<< 8 ||| r.l
  | Register.SP => r.sp
  | Register.PC => r.pc
  | _ => 0

/-- `RegData::write`; the source aborts on 16-bit registers (and on `Flag`,
which has no arm) — modelled as a no-op. -/
def RegData.write (r : RegData) (reg : Register) (data : Nat) : RegData :=
  match reg with
  | Register.A => { r with a := data }
  | Register.B => { r with b := data }
  | Register.C => { r with c := data }
  | Register.D => { r with d := data }
  | Register.E => { r with e := data }
  | Register.F => { r with f := data }
  | Register.H => { r with h := data }
  | Register.L => { r with l := data }
  | _ => r

/-- `RegData::write_u16`; aborts on 8-bit registers in the source — modelled
as a no-op. -/
def RegData.write_u16 (r : RegData) (reg : Register) (data : Nat) : RegData :=
  let hi := (data &&& 0xFF00) >>> 8
  let lo := data &&& 0xFF
  match reg with
  | Register.AF => { r with a := hi, f := lo }
  | Register.BC => { r with b := hi, c := lo }
  | Register.DE => { r with d := hi, e := lo }
  | Register.HL => { r with h := hi, l := lo }
  | Register.SP => { r with sp := data }
  | Register.PC => { r with pc := data }
  | _ => r

def RegData.copy (r : RegData) (dst src : Register) : RegData :=
  r.write dst (r.read src)

def RegData.copy_u16 (r : RegData) (dst src : Register) : RegData :=
  r.write_u16 dst (r.read_u16 src)

def RegData.set_flag (r : RegData) (flag : RegFlag) (b : Bool) : RegData :=
  let bit := flag.mask
  if b then { r with flag := r.flag ||| bit }
  else { r with flag := r.flag &&& (bit ^^^ 0xFF) }

def RegData.get_flag (r : RegData) (flag : RegFlag) : Bool :=
  let bit := flag.mask
  r.flag &&& bit != 0

/-- `RegData::advance_pc`: returns the old PC and increments (u16 wrap). -/
def RegData.advance_pc (r : RegData) : Nat × RegData :=
  (r.pc, { r with pc := (r.pc + 1) % 0x10000 })

def RegData.set_pc (r : RegData) (addr : Nat) : Nat × RegData :=
  (r.pc, { r with pc := addr })

def RegData.get_pc (r : RegData) : Nat := r.pc

/-! ## `src/cpu.rs`: CPU state and ALU helpers -/

def GB_FREQUENCY : Nat := 4194304

inductive CpuState
  | Running  -- instructions run normally
  | Halted   -- no instructions are run, reset on interrupt
  | Stopped  -- no instructions are run, reset on user input
deriving DecidableEq

structure Cpu where
  reg : RegData
  ram : AddressSpace
  freq : Nat
  clock : Nat
  state : CpuState
  intlevel : Bool

def Cpu.new_with_freq (freq : Nat) : Cpu :=
  { reg := RegData.new, ram := AddressSpace.new, freq := freq,
    clock := 0, state := CpuState.Running, intlevel := true }

def Cpu.new : Cpu := Cpu.new_with_freq GB_FREQUENCY

/-- Wrapping u16 subtraction (`Wrapping<u16>` semantics, operands < 2^16). -/
def wsub16 (a b : Nat) : Nat := (a + 0x10000 - b) % 0x10000

/-- Wrapping u16 addition. -/
def wadd16 (a b : Nat) : Nat := (a + b) % 0x10000

/-- `Cpu::add_no_writeback`: 8-bit add with flag computation; `halfsum` is a
u8 sum of nibbles (max 31, never wraps), `sum` a u16 sum (max 511). -/
def Cpu.add_no_writeback (cpu : Cpu) (x n : Nat) (carry_flag : Bool) : Nat × Cpu :=
  let carry := if carry_flag then 1 else 0
  let halfsum := (x &&& 0x0F) + (n &&& 0x0F) + carry
  let sum := x + n + carry
  let sum_u8 := sum &&& 0xFF
  let r := cpu.reg
  let r := r.set_flag RegFlag.Zero (decide (sum_u8 = 0))
  let r := r.set_flag RegFlag.Subtract false
  let r := r.set_flag RegFlag.HalfCarry (decide (halfsum > 0x0F))
  let r := r.set_flag RegFlag.Carry (decide (sum > 0xFF))
  (sum_u8, { cpu with reg := r })

def Cpu.add_with_carry (cpu : Cpu) (reg : Register) (n : Nat) (carry_flag : Bool) : Cpu :=
  let x := cpu.reg.read reg
  let (sum, cpu) := cpu.add_no_writeback x n carry_flag
  { cpu with reg := cpu.reg.write reg sum }

def Cpu.add (cpu : Cpu) (reg : Register) (n : Nat) : Cpu :=
  cpu.add_with_carry reg n false

/-- `Cpu::add_u16`: 16-bit add with flags, u32 intermediates ("half" = bit 11). -/
def Cpu.add_u16 (cpu : Cpu) (reg : Register) (n : Nat) : Cpu :=
  let x := cpu.reg.read_u16 reg
  let halfsum := (x &&& 0xFFF) + (n &&& 0xFFF)
  let sum := x + n
  let sum_u16 := sum &&& 0xFFFF
  let r := cpu.reg
  let r := r.set_flag RegFlag.Zero (decide (sum_u16 = 0))
  let r := r.set_flag RegFlag.Subtract false
  let r := r.set_flag RegFlag.HalfCarry (decide (halfsum > 0xFFF))
  let r := r.set_flag RegFlag.Carry (decide (sum > 0xFFFF))
  { cpu with reg := r.write_u16 reg sum_u16 }

/-- `Cpu::dec_u16`: clamps at 0 rather than wrapping; sets no flags. -/
def Cpu.dec_u16 (cpu : Cpu) (reg : Register) : Cpu :=
  let x := cpu.reg.read_u16 reg
  let diff := if x = 0 then 0 else x - 1
  { cpu with reg := cpu.reg.write_u16 reg diff }

/-- `Cpu::sub_no_writeback`: the borrow computation works on
`Wrapping<u16>`; note the carry-in is **added to the minuend**
(`xw = Wrapping(x as u16 + carry)`). -/
def Cpu.sub_no_writeback (cpu : Cpu) (x n : Nat) (carry_flag : Bool) : Nat × Cpu :=
  let carry := if carry_flag then 1 else 0
  let xw := x + carry
  let halfdiff := wsub16 (xw &&& 0x0F) (n &&& 0x0F)
  let diff := wsub16 xw n
  let diff_u8 := diff &&& 0xFF
  let r := cpu.reg
  let r := r.set_flag RegFlag.Zero (decide (diff_u8 = 0))
  let r := r.set_flag RegFlag.Subtract true
  let r := r.set_flag RegFlag.HalfCarry (decide (halfdiff > 0x0F))
  let r := r.set_flag RegFlag.Carry (decide (diff > 0xFF))
  (diff_u8, { cpu with reg := r })

def Cpu.sub_with_carry (cpu : Cpu) (reg : Register) (n : Nat) (carry_flag : Bool) : Cpu :=
  let x := cpu.reg.read reg
  let (diff, cpu) := cpu.sub_no_writeback x n carry_flag
  { cpu with reg := cpu.reg.write reg diff }

def Cpu.sub (cpu : Cpu) (reg : Register) (n : Nat) : Cpu :=
  cpu.sub_with_carry reg n false

def Cpu.set_bitand_flags (cpu : Cpu) (x : Nat) : Cpu :=
  let r := cpu.reg
  let r := r.set_flag RegFlag.Zero (decide (x = 0))
  let r := r.set_flag RegFlag.Subtract false
  let r := r.set_flag RegFlag.HalfCarry true
  let r := r.set_flag RegFlag.Carry false
  { cpu with reg := r }

def Cpu.set_bitor_flags (cpu : Cpu) (x : Nat) : Cpu :=
  let r := cpu.reg
  let r := r.set_flag RegFlag.Zero (decide (x = 0))
  let r := r.set_flag RegFlag.Subtract false
  let r := r.set_flag RegFlag.HalfCarry false
  let r := r.set_flag RegFlag.Carry false
  { cpu with reg := r }

def Cpu.swap_bits_no_writeback (cpu : Cpu) (n : Nat) : Nat × Cpu :=
  let x := ((n &&& 0x0F) <<< 4) ||| ((n &&& 0xF0) >>> 4)
  let r := cpu.reg
  let r := r.set_flag RegFlag.Zero (decide (x = 0))
  let r := r.set_flag RegFlag.Subtract false
  let r := r.set_flag RegFlag.HalfCarry false
  let r := r.set_flag RegFlag.Carry false
  (x, { cpu with reg := r })

def Cpu.swap_bits (cpu : Cpu) (reg : Register) : Cpu :=
  let n := cpu.reg.read reg
  let (x, cpu) := cpu.swap_bits_no_writeback n
  { cpu with reg := cpu.reg.write reg x }

/-- `Cpu::lrot` (note the source masks `x` — an u8 — with 0x100, so `msb` is
always 0 there; translated verbatim). -/
def Cpu.lrot (cpu : Cpu) (x : Nat) : Nat × Cpu :=
  let shift := x <<< 1
  let msb := x &&& 0x100
  let rot := (shift ||| (msb >>> 8)) &&& 0xFF
  let r := cpu.reg
  let r := r.set_flag RegFlag.Zero (decide (rot = 0))
  let r := r.set_flag RegFlag.Subtract false
  let r := r.set_flag RegFlag.HalfCarry false
  let r := r.set_flag RegFlag.Carry (decide (msb ≠ 0))
  (rot, { cpu with reg := r })

def Cpu.lrot_through (cpu : Cpu) (x : Nat) : Nat × Cpu :=
  let carry := if cpu.reg.get_flag RegFlag.Carry then 0x100 else 0
  let shift := (x ||| carry) <<< 1
  let carry := shift &&& 0x100
  let msb := shift &&& 0x200
  let rot := (shift ||| (msb >>> 9)) &&& 0xFF
  let r := cpu.reg
  let r := r.set_flag RegFlag.Zero (decide (rot = 0))
  let r := r.set_flag RegFlag.Subtract false
  let r := r.set_flag RegFlag.HalfCarry false
  let r := r.set_flag RegFlag.Carry (decide (carry ≠ 0))
  (rot, { cpu with reg := r })

def Cpu.rrot (cpu : Cpu) (x : Nat) : Nat × Cpu :=
  let lsb := x &&& 0x01
  let shift := x >>> 1
  let rot := shift ||| (lsb <<< 7)
  let r := cpu.reg
  let r := r.set_flag RegFlag.Zero (decide (rot = 0))
  let r := r.set_flag RegFlag.Subtract false
  let r := r.set_flag RegFlag.HalfCarry false
  let r := r.set_flag RegFlag.Carry (decide (lsb ≠ 0))
  (rot, { cpu with reg := r })

def Cpu.rrot_through (cpu : Cpu) (x : Nat) : Nat × Cpu :=
  let carry := if cpu.reg.get_flag RegFlag.Carry then 0x100 else 0
  let lsb := x &&& 0x01
  let shift := (x ||| carry) >>> 1
  let rot := shift &&& 0xFF
  let r := cpu.reg
  let r := r.set_flag RegFlag.Zero (decide (rot = 0))
  let r := r.set_flag RegFlag.Subtract false
  let r := r.set_flag RegFlag.HalfCarry false
  let r := r.set_flag RegFlag.Carry (decide (lsb ≠ 0))
  (rot, { cpu with reg := r })

def Cpu.lshift (cpu : Cpu) (x : Nat) : Nat × Cpu :=
  let shift := x <<< 1
  let carry := shift &&& 0x100
  let shift := shift &&& 0xFF
  let r := cpu.reg
  let r := r.set_flag RegFlag.Zero (decide (shift = 0))
  let r := r.set_flag RegFlag.Subtract false
  let r := r.set_flag RegFlag.HalfCarry false
  let r := r.set_flag RegFlag.Carry (decide (carry ≠ 0))
  (shift, { cpu with reg := r })

def Cpu.rshift_logical (cpu : Cpu) (x : Nat) : Nat × Cpu :=
  let carry := x &&& 0x01
  let shift := x >>> 1
  let r := cpu.reg
  let r := r.set_flag RegFlag.Zero (decide (shift = 0))
  let r := r.set_flag RegFlag.Subtract false
  let r := r.set_flag RegFlag.HalfCarry false
  let r := r.set_flag RegFlag.Carry (decide (carry ≠ 0))
  (shift, { cpu with reg := r })

def Cpu.rshift_arithmetic (cpu : Cpu) (x : Nat) : Nat × Cpu :=
  let msb := x &&& 0x80
  let lsb := x &&& 0x01
  let shift := (x >>> 1) ||| msb
  let r := cpu.reg
  let r := r.set_flag RegFlag.Zero (decide (shift = 0))
  let r := r.set_flag RegFlag.Subtract false
  let r := r.set_flag RegFlag.HalfCarry false
  let r := r.set_flag RegFlag.Carry (decide (lsb ≠ 0))
  (shift, { cpu with reg := r })

/-! ## Diagnostics

The source reports recoverable conditions through `println!`; each distinct
diagnostic message is modelled as one constructor. -/

inductive Diag
  /-- "Warning: CPU stopped/halted and interrupts are disabled!" -/
  | stuckWarning
  /-- "Warning: Missing instruction data for opcode {opcode}" -/
  | missingData (opcode : Nat)
  /-- "Warning: Missing instruction data for opcode CB {sub}" -/
  | missingDataCB (sub : Nat)
  /-- "Warning: Instruction DAA not implemented" -/
  | daaUnimplemented
deriving DecidableEq

/-! ## `src/instr.rs`: instruction decoder -/

structure Instr where
  opcode : Nat
  data : List Nat
  cycles : Nat
deriving DecidableEq

def Instr.param_two (reg : RegData) (rom : AddressSpace) : List Nat × RegData :=
  let (p1, reg) := reg.advance_pc
  let one := rom.read p1
  let (p2, reg) := reg.advance_pc
  let two := rom.read p2
  ([one, two], reg)

def Instr.param_one (reg : RegData) (rom : AddressSpace) : List Nat × RegData :=
  let (p1, reg) := reg.advance_pc
  let one := rom.read p1
  ([one], reg)

/-- `Instr::parse`: fetches the opcode, then operand bytes and cycle cost
according to the per-opcode table (the Rust `match` arms below, in order).
Also returns the mutated register file and any decode diagnostics. -/
def Instr.parse (reg : RegData) (rom : AddressSpace) : Instr × RegData × List Diag :=
  let (pc0, reg) := reg.advance_pc
  let opcode := rom.read pc0
  -- LD reg, immed
  if opcode ∈ [0x06, 0x0E, 0x16, 0x1E, 0x26, 0x2E, 0x3E] then
    let (v, reg) := Instr.param_one reg rom
    (⟨opcode, v, 8⟩, reg, [])
  -- LD reg, reg
  else if (0x78 ≤ opcode ∧ opcode ≤ 0x7D) ∨ opcode = 0x7F ∨
      (0x40 ≤ opcode ∧ opcode ≤ 0x45) ∨ (0x47 ≤ opcode ∧ opcode ≤ 0x4D) ∨ opcode = 0x4F ∨
      (0x50 ≤ opcode ∧ opcode ≤ 0x55) ∨ (0x57 ≤ opcode ∧ opcode ≤ 0x5D) ∨ opcode = 0x5F ∨
      (0x60 ≤ opcode ∧ opcode ≤ 0x65) ∨ (0x67 ≤ opcode ∧ opcode ≤ 0x6D) ∨ opcode = 0x6F then
    (⟨opcode, [], 4⟩, reg, [])
  -- LD reg, (reg) or LD (reg), reg
  else if opcode ∈ [0x7E, 0x46, 0x4E, 0x56, 0x5E, 0x66, 0x6E] ∨
      (0x70 ≤ opcode ∧ opcode ≤ 0x75) ∨
      opcode ∈ [0x0A, 0x1A, 0x02, 0x12, 0x77, 0xF2, 0xE2, 0x3A, 0x32, 0x2A, 0x22, 0xF9] then
    (⟨opcode, [], 8⟩, reg, [])
  -- LD (HL), immed / LD (FF00+immed) / LDHL SP, immed
  else if opcode ∈ [0x36, 0xE0, 0xF0, 0xF8] then
    let (v, reg) := Instr.param_one reg rom
    (⟨opcode, v, 12⟩, reg, [])
  -- LD A, (immed) or LD (immed), A
  else if opcode ∈ [0xFA, 0xEA] then
    let (v, reg) := Instr.param_two reg rom
    (⟨opcode, v, 16⟩, reg, [])
  -- LD reg16, immed
  else if opcode ∈ [0x01, 0x11, 0x21, 0x31] then
    let (v, reg) := Instr.param_two reg rom
    (⟨opcode, v, 12⟩, reg, [])
  -- LD (immed), SP
  else if opcode = 0x08 then
    let (v, reg) := Instr.param_two reg rom
    (⟨opcode, v, 20⟩, reg, [])
  -- PUSH reg
  else if opcode ∈ [0xF5, 0xC5, 0xD5, 0xE5] then
    (⟨opcode, [], 16⟩, reg, [])
  -- POP reg
  else if opcode ∈ [0xF1, 0xC1, 0xD1, 0xE1] then
    (⟨opcode, [], 12⟩, reg, [])
  -- [ALU] reg, reg
  else if (0x80 ≤ opcode ∧ opcode ≤ 0x85) ∨ (0x87 ≤ opcode ∧ opcode ≤ 0x8D) ∨
      (0x8F ≤ opcode ∧ opcode ≤ 0x95) ∨ (0x97 ≤ opcode ∧ opcode ≤ 0x9D) ∨
      (0x9F ≤ opcode ∧ opcode ≤ 0xA5) ∨ (0xA7 ≤ opcode ∧ opcode ≤ 0xAD) ∨
      (0xAF ≤ opcode ∧ opcode ≤ 0xB5) ∨ (0xB7 ≤ opcode ∧ opcode ≤ 0xBD) ∨ opcode = 0xBF then
    (⟨opcode, [], 4⟩, reg, [])
  -- [ALU] reg, (HL)
  else if opcode ∈ [0x86, 0x8E, 0x96, 0x9E, 0xA6, 0xAE, 0xB6, 0xBE] then
    (⟨opcode, [], 8⟩, reg, [])
  -- [ALU] reg, immed
  else if opcode ∈ [0xC6, 0xCE, 0xD6, 0xDE, 0xE6, 0xEE, 0xF6, 0xFE] then
    let (v, reg) := Instr.param_one reg rom
    (⟨opcode, v, 8⟩, reg, [])
  -- INC reg / DEC reg
  else if opcode ∈ [0x3C, 0x3D, 0x04, 0x05, 0x0C, 0x0D, 0x14, 0x15, 0x1C, 0x1D,
      0x24, 0x25, 0x2C, 0x2D] then
    (⟨opcode, [], 4⟩, reg, [])
  -- INC (HL) / DEC (HL)
  else if opcode ∈ [0x34, 0x35] then
    (⟨opcode, [], 12⟩, reg, [])
  -- [ALU 16-bit]
  else if opcode ∈ [0x09, 0x19, 0x29, 0x39, 0x03, 0x13, 0x23, 0x33, 0x0B, 0x1B, 0x2B, 0x3B] then
    (⟨opcode, [], 8⟩, reg, [])
  -- ADD SP, immed
  else if opcode = 0xE8 then
    let (v, reg) := Instr.param_one reg rom
    (⟨opcode, v, 16⟩, reg, [])
  -- Bit instructions
  else if opcode = 0xCB then
    let (v, reg) := Instr.param_one reg rom
    let v0 := v.getD 0 0
    if (0x30 ≤ v0 ∧ v0 ≤ 0x35) ∨ v0 = 0x37 ∨ (v0 ≤ 0x05) ∨
        (0x07 ≤ v0 ∧ v0 ≤ 0x0D) ∨ (0x0F ≤ v0 ∧ v0 ≤ 0x15) ∨ (0x17 ≤ v0 ∧ v0 ≤ 0x1D) ∨
        (0x1F ≤ v0 ∧ v0 ≤ 0x25) ∨ (0x27 ≤ v0 ∧ v0 ≤ 0x2D) ∨ v0 = 0x2F ∨
        (0x38 ≤ v0 ∧ v0 ≤ 0x3D) ∨ (0x3F ≤ v0 ∧ v0 ≤ 0x45) ∨ v0 = 0x47 ∨
        (0xC0 ≤ v0 ∧ v0 ≤ 0xC5) ∨ v0 = 0xC7 ∨ (0x80 ≤ v0 ∧ v0 ≤ 0x85) ∨ v0 = 0x87 then
      (⟨opcode, v, 8⟩, reg, [])
    else if v0 ∈ [0x36, 0x06, 0x0E, 0x16, 0x1E, 0x26, 0x2E, 0x3E, 0x46, 0xC6, 0x86] then
      (⟨opcode, v, 16⟩, reg, [])
    else
      (⟨opcode, v, 4⟩, reg, [Diag.missingDataCB v0])
  -- DAA, CPL, CCF, SCF, NOP, HALT, DI, EI, RLCA, RLA, RRCA, RRA
  else if opcode ∈ [0x27, 0x2F, 0x3F, 0x37, 0x00, 0x76, 0xF3, 0xFB, 0x07, 0x17, 0x0F, 0x1F] then
    (⟨opcode, [], 4⟩, reg, [])
  -- STOP
  else if opcode = 0x10 then
    let (v, reg) := Instr.param_one reg rom
    (⟨opcode, v, 4⟩, reg, [])
  -- JP cond, immed
  else if opcode ∈ [0xC3, 0xC2, 0xCA, 0xD2, 0xDA] then
    let (v, reg) := Instr.param_two reg rom
    (⟨opcode, v, 12⟩, reg, [])
  -- JP HL
  else if opcode = 0xE9 then
    (⟨opcode, [], 4⟩, reg, [])
  -- JR cond, immed
  else if opcode ∈ [0x18, 0x20, 0x28, 0x30, 0x38] then
    let (v, reg) := Instr.param_one reg rom
    (⟨opcode, v, 8⟩, reg, [])
  -- CALL cond, immed
  else if opcode ∈ [0xCD, 0xC4, 0xCC, 0xD4, 0xDC] then
    let (v, reg) := Instr.param_two reg rom
    (⟨opcode, v, 12⟩, reg, [])
  -- RST
  else if opcode ∈ [0xC7, 0xCF, 0xD7, 0xDF, 0xE7, 0xEF, 0xF7, 0xFF] then
    (⟨opcode, [], 32⟩, reg, [])
  -- RET cond / RETI
  else if opcode ∈ [0xC9, 0xC0, 0xC8, 0xD0, 0xD8, 0xD9] then
    (⟨opcode, [], 8⟩, reg, [])
  -- unrecognized: decode with default values and report
  else
    (⟨opcode, [], 4⟩, reg, [Diag.missingData opcode])

/-- `Instr::param`; the source indexes a `Vec` (aborts out of range, never
exercised in range by the dispatch) — modelled with default 0. -/
def Instr.param (i : Instr) (idx : Nat) : Nat := i.data.getD idx 0

def Instr.param_u16 (i : Instr) (idx : Nat) : Nat :=
  i.data.getD idx 0 ||| (i.data.getD (idx + 1) 0) <<< 8

/-! ## `src/cpu.rs`: opcode dispatch

The body of `Cpu::do_instr` after the halted/stopped early return.  An
unimplemented opcode aborts the process in the source (`panic!` arm),
modelled as `none`.  u16 `addr ± k` address arithmetic is modelled
wrapping (`wadd16`/`wsub16`). -/

set_option maxHeartbeats 4000000 in
def Cpu.run_instr (cpu : Cpu) (instr : Instr) : Option (Cpu × List Diag) :=
  match instr.opcode with
  -- 8-bit immediate loads
  | 0x06 => some ({ cpu with reg := cpu.reg.write Register.B (instr.param 0) }, [])
  | 0x0E => some ({ cpu with reg := cpu.reg.write Register.C (instr.param 0) }, [])
  | 0x16 => some ({ cpu with reg := cpu.reg.write Register.D (instr.param 0) }, [])
  | 0x1E => some ({ cpu with reg := cpu.reg.write Register.E (instr.param 0) }, [])
  | 0x26 => some ({ cpu with reg := cpu.reg.write Register.H (instr.param 0) }, [])
  | 0x2E => some ({ cpu with reg := cpu.reg.write Register.L (instr.param 0) }, [])
  -- 8-bit register loads
  | 0x47 => some ({ cpu with reg := cpu.reg.copy Register.B Register.A }, [])
  | 0x40 => some ({ cpu with reg := cpu.reg.copy Register.B Register.B }, [])
  | 0x41 => some ({ cpu with reg := cpu.reg.copy Register.B Register.C }, [])
  | 0x42 => some ({ cpu with reg := cpu.reg.copy Register.B Register.D }, [])
  | 0x43 => some ({ cpu with reg := cpu.reg.copy Register.B Register.E }, [])
  | 0x44 => some ({ cpu with reg := cpu.reg.copy Register.B Register.H }, [])
  | 0x45 => some ({ cpu with reg := cpu.reg.copy Register.B Register.L }, [])
  | 0x46 =>
    let addr := cpu.reg.read_u16 Register.HL
    some ({ cpu with reg := cpu.reg.write Register.B (cpu.ram.read addr) }, [])
  | 0x4F => some ({ cpu with reg := cpu.reg.copy Register.C Register.A }, [])
  | 0x48 => some ({ cpu with reg := cpu.reg.copy Register.C Register.B }, [])
  | 0x49 => some ({ cpu with reg := cpu.reg.copy Register.C Register.C }, [])
  | 0x4A => some ({ cpu with reg := cpu.reg.copy Register.C Register.D }, [])
  | 0x4B => some ({ cpu with reg := cpu.reg.copy Register.C Register.E }, [])
  | 0x4C => some ({ cpu with reg := cpu.reg.copy Register.C Register.H }, [])
  | 0x4D => some ({ cpu with reg := cpu.reg.copy Register.C Register.L }, [])
  | 0x4E =>
    let addr := cpu.reg.read_u16 Register.HL
    some ({ cpu with reg := cpu.reg.write Register.C (cpu.ram.read addr) }, [])
  | 0x57 => some ({ cpu with reg := cpu.reg.copy Register.D Register.A }, [])
  | 0x50 => some ({ cpu with reg := cpu.reg.copy Register.D Register.B }, [])
  | 0x51 => some ({ cpu with reg := cpu.reg.copy Register.D Register.C }, [])
  | 0x52 => some ({ cpu with reg := cpu.reg.copy Register.D Register.D }, [])
  | 0x53 => some ({ cpu with reg := cpu.reg.copy Register.D Register.E }, [])
  | 0x54 => some ({ cpu with reg := cpu.reg.copy Register.D Register.H }, [])
  | 0x55 => some ({ cpu with reg := cpu.reg.copy Register.D Register.L }, [])
  | 0x56 =>
    let addr := cpu.reg.read_u16 Register.HL
    some ({ cpu with reg := cpu.reg.write Register.D (cpu.ram.read addr) }, [])
  | 0x5F => some ({ cpu with reg := cpu.reg.copy Register.E Register.A }, [])
  | 0x58 => some ({ cpu with reg := cpu.reg.copy Register.E Register.B }, [])
  | 0x59 => some ({ cpu with reg := cpu.reg.copy Register.E Register.C }, [])
  | 0x5A => some ({ cpu with reg := cpu.reg.copy Register.E Register.D }, [])
  | 0x5B => some ({ cpu with reg := cpu.reg.copy Register.E Register.E }, [])
  | 0x5C => some ({ cpu with reg := cpu.reg.copy Register.E Register.H }, [])
  | 0x5D => some ({ cpu with reg := cpu.reg.copy Register.E Register.L }, [])
  | 0x5E =>
    let addr := cpu.reg.read_u16 Register.HL
    some ({ cpu with reg := cpu.reg.write Register.E (cpu.ram.read addr) }, [])
  | 0x67 => some ({ cpu with reg := cpu.reg.copy Register.H Register.A }, [])
  | 0x60 => some ({ cpu with reg := cpu.reg.copy Register.H Register.B }, [])
  | 0x61 => some ({ cpu with reg := cpu.reg.copy Register.H Register.C }, [])
  | 0x62 => some ({ cpu with reg := cpu.reg.copy Register.H Register.D }, [])
  | 0x63 => some ({ cpu with reg := cpu.reg.copy Register.H Register.E }, [])
  | 0x64 => some ({ cpu with reg := cpu.reg.copy Register.H Register.H }, [])
  | 0x65 => some ({ cpu with reg := cpu.reg.copy Register.H Register.L }, [])
  | 0x66 =>
    let addr := cpu.reg.read_u16 Register.HL
    some ({ cpu with reg := cpu.reg.write Register.H (cpu.ram.read addr) }, [])
  | 0x6F => some ({ cpu with reg := cpu.reg.copy Register.L Register.A }, [])
  | 0x68 => some ({ cpu with reg := cpu.reg.copy Register.L Register.B }, [])
  | 0x69 => some ({ cpu with reg := cpu.reg.copy Register.L Register.C }, [])
  | 0x6A => some ({ cpu with reg := cpu.reg.copy Register.L Register.D }, [])
  | 0x6B => some ({ cpu with reg := cpu.reg.copy Register.L Register.E }, [])
  | 0x6C => some ({ cpu with reg := cpu.reg.copy Register.L Register.H }, [])
  | 0x6D => some ({ cpu with reg := cpu.reg.copy Register.L Register.L }, [])
  | 0x6E =>
    let addr := cpu.reg.read_u16 Register.HL
    some ({ cpu with reg := cpu.reg.write Register.L (cpu.ram.read addr) }, [])
  -- 8-bit load to ram
  | 0x70 => some ({ cpu with ram := cpu.ram.write (cpu.reg.read_u16 Register.HL) (cpu.reg.read Register.B) }, [])
  | 0x71 => some ({ cpu with ram := cpu.ram.write (cpu.reg.read_u16 Register.HL) (cpu.reg.read Register.C) }, [])
  | 0x72 => some ({ cpu with ram := cpu.ram.write (cpu.reg.read_u16 Register.HL) (cpu.reg.read Register.D) }, [])
  | 0x73 => some ({ cpu with ram := cpu.ram.write (cpu.reg.read_u16 Register.HL) (cpu.reg.read Register.E) }, [])
  | 0x74 => some ({ cpu with ram := cpu.ram.write (cpu.reg.read_u16 Register.HL) (cpu.reg.read Register.H) }, [])
  | 0x75 => some ({ cpu with ram := cpu.ram.write (cpu.reg.read_u16 Register.HL) (cpu.reg.read Register.L) }, [])
  | 0x36 => some ({ cpu with ram := cpu.ram.write (cpu.reg.read_u16 Register.HL) (instr.param 0) }, [])
  -- loads into register A
  | 0x7F => some ({ cpu with reg := cpu.reg.copy Register.A Register.A }, [])
  | 0x78 => some ({ cpu with reg := cpu.reg.copy Register.A Register.B }, [])
  | 0x79 => some ({ cpu with reg := cpu.reg.copy Register.A Register.C }, [])
  | 0x7A => some ({ cpu with reg := cpu.reg.copy Register.A Register.D }, [])
  | 0x7B => some ({ cpu with reg := cpu.reg.copy Register.A Register.E }, [])
  | 0x7C => some ({ cpu with reg := cpu.reg.copy Register.A Register.H }, [])
  | 0x7D => some ({ cpu with reg := cpu.reg.copy Register.A Register.L }, [])
  | 0x0A =>
    let addr := cpu.reg.read_u16 Register.BC
    some ({ cpu with reg := cpu.reg.write Register.A (cpu.ram.read addr) }, [])
  | 0x1A =>
    let addr := cpu.reg.read_u16 Register.DE
    some ({ cpu with reg := cpu.reg.write Register.A (cpu.ram.read addr) }, [])
  | 0x7E =>
    let addr := cpu.reg.read_u16 Register.HL
    some ({ cpu with reg := cpu.reg.write Register.A (cpu.ram.read addr) }, [])
  | 0xFA => some ({ cpu with reg := cpu.reg.write Register.A (cpu.ram.read (instr.param_u16 0)) }, [])
  | 0x3E => some ({ cpu with reg := cpu.reg.write Register.A (instr.param 0) }, [])
  -- writes from register A
  | 0x02 => some ({ cpu with ram := cpu.ram.write (cpu.reg.read_u16 Register.BC) (cpu.reg.read Register.A) }, [])
  | 0x12 => some ({ cpu with ram := cpu.ram.write (cpu.reg.read_u16 Register.DE) (cpu.reg.read Register.A) }, [])
  | 0x77 => some ({ cpu with ram := cpu.ram.write (cpu.reg.read_u16 Register.HL) (cpu.reg.read Register.A) }, [])
  | 0xEA => some ({ cpu with ram := cpu.ram.write (instr.param_u16 0) (cpu.reg.read Register.A) }, [])
  -- Read/Write ($FF00 + C) with A
  | 0xF2 =>
    let addr := 0xFF00 + cpu.reg.read Register.C
    some ({ cpu with reg := cpu.reg.write Register.A (cpu.ram.read addr) }, [])
  | 0xE2 => some ({ cpu with ram := cpu.ram.write (0xFF00 + cpu.reg.read Register.C) (cpu.reg.read Register.A) }, [])
  -- Load from (HL) and decrement
  | 0x3A =>
    let addr := cpu.reg.read_u16 Register.HL
    let reg := cpu.reg.write Register.A (cpu.ram.read addr)
    some ({ cpu with reg := reg.write_u16 Register.HL (wsub16 addr 1) }, [])
  -- Write to (HL) and decrement
  | 0x32 =>
    let addr := cpu.reg.read_u16 Register.HL
    let ram := cpu.ram.write addr (cpu.reg.read Register.A)
    some ({ cpu with ram := ram, reg := cpu.reg.write_u16 Register.HL (wsub16 addr 1) }, [])
  -- Load from (HL) and increment
  | 0x2A =>
    let addr := cpu.reg.read_u16 Register.HL
    let reg := cpu.reg.write Register.A (cpu.ram.read addr)
    some ({ cpu with reg := reg.write_u16 Register.HL (wadd16 addr 1) }, [])
  -- Write to (HL) and increment
  | 0x22 =>
    let addr := cpu.reg.read_u16 Register.HL
    let ram := cpu.ram.write addr (cpu.reg.read Register.A)
    some ({ cpu with ram := ram, reg := cpu.reg.write_u16 Register.HL (wadd16 addr 1) }, [])
  -- Write to ($FF00 + immediate)
  | 0xE0 => some ({ cpu with ram := cpu.ram.write (0xFF00 + instr.param 0) (cpu.reg.read Register.A) }, [])
  -- Load ($FF00 + immediate)
  | 0xF0 => some ({ cpu with reg := cpu.reg.write Register.A (cpu.ram.read (0xFF00 + instr.param 0)) }, [])
  -- 16-bit immediate loads
  | 0x01 => some ({ cpu with reg := cpu.reg.write_u16 Register.BC (instr.param_u16 0) }, [])
  | 0x11 => some ({ cpu with reg := cpu.reg.write_u16 Register.DE (instr.param_u16 0) }, [])
  | 0x21 => some ({ cpu with reg := cpu.reg.write_u16 Register.HL (instr.param_u16 0) }, [])
  | 0x31 => some ({ cpu with reg := cpu.reg.write_u16 Register.SP (instr.param_u16 0) }, [])
  -- Copy HL into SP
  | 0xF9 => some ({ cpu with reg := cpu.reg.copy_u16 Register.SP Register.HL }, [])
  -- Load effective address SP + immediate into HL
  | 0xF8 =>
    let addr := wadd16 (cpu.reg.read_u16 Register.SP) (instr.param 0)
    some ({ cpu with reg := cpu.reg.write_u16 Register.HL addr }, [])
  -- Put SP at (immediate)
  | 0x08 => some ({ cpu with ram := cpu.ram.write_u16 (instr.param_u16 0) (cpu.reg.read_u16 Register.SP) }, [])
  -- Push instructions
  | 0xF5 =>
    let addr := cpu.reg.read_u16 Register.SP
    let ram := cpu.ram.write_u16 addr (cpu.reg.read_u16 Register.AF)
    some ({ cpu with ram := ram, reg := cpu.reg.write_u16 Register.SP (wsub16 addr 2) }, [])
  | 0xC5 =>
    let addr := cpu.reg.read_u16 Register.SP
    let ram := cpu.ram.write_u16 addr (cpu.reg.read_u16 Register.BC)
    some ({ cpu with ram := ram, reg := cpu.reg.write_u16 Register.SP (wsub16 addr 2) }, [])
  | 0xD5 =>
    let addr := cpu.reg.read_u16 Register.SP
    let ram := cpu.ram.write_u16 addr (cpu.reg.read_u16 Register.DE)
    some ({ cpu with ram := ram, reg := cpu.reg.write_u16 Register.SP (wsub16 addr 2) }, [])
  | 0xE5 =>
    let addr := cpu.reg.read_u16 Register.SP
    let ram := cpu.ram.write_u16 addr (cpu.reg.read_u16 Register.HL)
    some ({ cpu with ram := ram, reg := cpu.reg.write_u16 Register.SP (wsub16 addr 2) }, [])
  -- Pop instructions
  | 0xF1 =>
    let addr := cpu.reg.read_u16 Register.SP
    let reg := cpu.reg.write_u16 Register.AF (cpu.ram.read_u16 addr)
    some ({ cpu with reg := reg.write_u16 Register.SP (wadd16 addr 2) }, [])
  | 0xC1 =>
    let addr := cpu.reg.read_u16 Register.SP
    let reg := cpu.reg.write_u16 Register.BC (cpu.ram.read_u16 addr)
    some ({ cpu with reg := reg.write_u16 Register.SP (wadd16 addr 2) }, [])
  | 0xD1 =>
    let addr := cpu.reg.read_u16 Register.SP
    let reg := cpu.reg.write_u16 Register.DE (cpu.ram.read_u16 addr)
    some ({ cpu with reg := reg.write_u16 Register.SP (wadd16 addr 2) }, [])
  | 0xE1 =>
    let addr := cpu.reg.read_u16 Register.SP
    let reg := cpu.reg.write_u16 Register.HL (cpu.ram.read_u16 addr)
    some ({ cpu with reg := reg.write_u16 Register.SP (wadd16 addr 2) }, [])
  -- Add instructions
  | 0x87 => some (cpu.add Register.A (cpu.reg.read Register.A), [])
  | 0x80 => some (cpu.add Register.A (cpu.reg.read Register.B), [])
  | 0x81 => some (cpu.add Register.A (cpu.reg.read Register.C), [])
  | 0x82 => some (cpu.add Register.A (cpu.reg.read Register.D), [])
  | 0x83 => some (cpu.add Register.A (cpu.reg.read Register.E), [])
  | 0x84 => some (cpu.add Register.A (cpu.reg.read Register.H), [])
  | 0x85 => some (cpu.add Register.A (cpu.reg.read Register.L), [])
  | 0x86 => some (cpu.add Register.A (cpu.ram.read (cpu.reg.read_u16 Register.HL)), [])
  | 0xC6 => some (cpu.add Register.A (instr.param 0), [])
  -- Add with carry instructions
  | 0x8F => some (cpu.add_with_carry Register.A (cpu.reg.read Register.A) (cpu.reg.get_flag RegFlag.Carry), [])
  | 0x88 => some (cpu.add_with_carry Register.A (cpu.reg.read Register.B) (cpu.reg.get_flag RegFlag.Carry), [])
  | 0x89 => some (cpu.add_with_carry Register.A (cpu.reg.read Register.C) (cpu.reg.get_flag RegFlag.Carry), [])
  | 0x8A => some (cpu.add_with_carry Register.A (cpu.reg.read Register.D) (cpu.reg.get_flag RegFlag.Carry), [])
  | 0x8B => some (cpu.add_with_carry Register.A (cpu.reg.read Register.E) (cpu.reg.get_flag RegFlag.Carry), [])
  | 0x8C => some (cpu.add_with_carry Register.A (cpu.reg.read Register.H) (cpu.reg.get_flag RegFlag.Carry), [])
  | 0x8D => some (cpu.add_with_carry Register.A (cpu.reg.read Register.L) (cpu.reg.get_flag RegFlag.Carry), [])
  | 0x8E => some (cpu.add_with_carry Register.A (cpu.ram.read (cpu.reg.read_u16 Register.HL)) (cpu.reg.get_flag RegFlag.Carry), [])
  | 0xCE => some (cpu.add_with_carry Register.A (instr.param 0) (cpu.reg.get_flag RegFlag.Carry), [])
  -- Subtract
  | 0x97 => some (cpu.sub Register.A (cpu.reg.read Register.A), [])
  | 0x90 => some (cpu.sub Register.A (cpu.reg.read Register.B), [])
  | 0x91 => some (cpu.sub Register.A (cpu.reg.read Register.C), [])
  | 0x92 => some (cpu.sub Register.A (cpu.reg.read Register.D), [])
  | 0x93 => some (cpu.sub Register.A (cpu.reg.read Register.E), [])
  | 0x94 => some (cpu.sub Register.A (cpu.reg.read Register.H), [])
  | 0x95 => some (cpu.sub Register.A (cpu.reg.read Register.L), [])
  | 0x96 => some (cpu.sub Register.A (cpu.ram.read (cpu.reg.read_u16 Register.HL)), [])
  | 0xD6 => some (cpu.sub Register.A (instr.param 0), [])
  -- Subtract with carry
  | 0x9F => some (cpu.sub_with_carry Register.A (cpu.reg.read Register.A) (cpu.reg.get_flag RegFlag.Carry), [])
  | 0x98 => some (cpu.sub_with_carry Register.A (cpu.reg.read Register.B) (cpu.reg.get_flag RegFlag.Carry), [])
  | 0x99 => some (cpu.sub_with_carry Register.A (cpu.reg.read Register.C) (cpu.reg.get_flag RegFlag.Carry), [])
  | 0x9A => some (cpu.sub_with_carry Register.A (cpu.reg.read Register.D) (cpu.reg.get_flag RegFlag.Carry), [])
  | 0x9B => some (cpu.sub_with_carry Register.A (cpu.reg.read Register.E) (cpu.reg.get_flag RegFlag.Carry), [])
  | 0x9C => some (cpu.sub_with_carry Register.A (cpu.reg.read Register.H) (cpu.reg.get_flag RegFlag.Carry), [])
  | 0x9D => some (cpu.sub_with_carry Register.A (cpu.reg.read Register.L) (cpu.reg.get_flag RegFlag.Carry), [])
  | 0x9E => some (cpu.sub_with_carry Register.A (cpu.ram.read (cpu.reg.read_u16 Register.HL)) (cpu.reg.get_flag RegFlag.Carry), [])
  | 0xDE => some (cpu.sub_with_carry Register.A (instr.param 0) (cpu.reg.get_flag RegFlag.Carry), [])
  -- Bitwise AND
  | 0xA7 =>
    let a := cpu.reg.read Register.A
    let x := a &&& a
    let cpu := cpu.set_bitand_flags x
    some ({ cpu with reg := cpu.reg.write Register.A x }, [])
  | 0xA0 =>
    let x := cpu.reg.read Register.A &&& cpu.reg.read Register.B
    let cpu := cpu.set_bitand_flags x
    some ({ cpu with reg := cpu.reg.write Register.A x }, [])
  | 0xA1 =>
    let x := cpu.reg.read Register.A &&& cpu.reg.read Register.C
    let cpu := cpu.set_bitand_flags x
    some ({ cpu with reg := cpu.reg.write Register.A x }, [])
  | 0xA2 =>
    let x := cpu.reg.read Register.A &&& cpu.reg.read Register.D
    let cpu := cpu.set_bitand_flags x
    some ({ cpu with reg := cpu.reg.write Register.A x }, [])
  | 0xA3 =>
    let x := cpu.reg.read Register.A &&& cpu.reg.read Register.E
    let cpu := cpu.set_bitand_flags x
    some ({ cpu with reg := cpu.reg.write Register.A x }, [])
  | 0xA4 =>
    let x := cpu.reg.read Register.A &&& cpu.reg.read Register.H
    let cpu := cpu.set_bitand_flags x
    some ({ cpu with reg := cpu.reg.write Register.A x }, [])
  | 0xA5 =>
    let x := cpu.reg.read Register.A &&& cpu.reg.read Register.L
    let cpu := cpu.set_bitand_flags x
    some ({ cpu with reg := cpu.reg.write Register.A x }, [])
  | 0xA6 =>
    let x := cpu.reg.read Register.A &&& cpu.ram.read (cpu.reg.read_u16 Register.HL)
    let cpu := cpu.set_bitand_flags x
    some ({ cpu with reg := cpu.reg.write Register.A x }, [])
  | 0xE6 =>
    let x := cpu.reg.read Register.A &&& instr.param 0
    let cpu := cpu.set_bitand_flags x
    some ({ cpu with reg := cpu.reg.write Register.A x }, [])
  -- Bitwise OR
  | 0xB7 =>
    let a := cpu.reg.read Register.A
    let x := a ||| a
    let cpu := cpu.set_bitor_flags x
    some ({ cpu with reg := cpu.reg.write Register.A x }, [])
  | 0xB0 =>
    let x := cpu.reg.read Register.A ||| cpu.reg.read Register.B
    let cpu := cpu.set_bitor_flags x
    some ({ cpu with reg := cpu.reg.write Register.A x }, [])
  | 0xB1 =>
    let x := cpu.reg.read Register.A ||| cpu.reg.read Register.C
    let cpu := cpu.set_bitor_flags x
    some ({ cpu with reg := cpu.reg.write Register.A x }, [])
  | 0xB2 =>
    let x := cpu.reg.read Register.A ||| cpu.reg.read Register.D
    let cpu := cpu.set_bitor_flags x
    some ({ cpu with reg := cpu.reg.write Register.A x }, [])
  | 0xB3 =>
    let x := cpu.reg.read Register.A ||| cpu.reg.read Register.E
    let cpu := cpu.set_bitor_flags x
    some ({ cpu with reg := cpu.reg.write Register.A x }, [])
  | 0xB4 =>
    let x := cpu.reg.read Register.A ||| cpu.reg.read Register.H
    let cpu := cpu.set_bitor_flags x
    some ({ cpu with reg := cpu.reg.write Register.A x }, [])
  | 0xB5 =>
    let x := cpu.reg.read Register.A ||| cpu.reg.read Register.L
    let cpu := cpu.set_bitor_flags x
    some ({ cpu with reg := cpu.reg.write Register.A x }, [])
  | 0xB6 =>
    let x := cpu.reg.read Register.A ||| cpu.ram.read (cpu.reg.read_u16 Register.HL)
    let cpu := cpu.set_bitor_flags x
    some ({ cpu with reg := cpu.reg.write Register.A x }, [])
  | 0xF6 =>
    let x := cpu.reg.read Register.A ||| instr.param 0
    let cpu := cpu.set_bitor_flags x
    some ({ cpu with reg := cpu.reg.write Register.A x }, [])
  -- Bitwise XOR
  | 0xAF =>
    let a := cpu.reg.read Register.A
    let x := a ^^^ a
    let cpu := cpu.set_bitor_flags x
    some ({ cpu with reg := cpu.reg.write Register.A x }, [])
  | 0xA8 =>
    let x := cpu.reg.read Register.A ^^^ cpu.reg.read Register.B
    let cpu := cpu.set_bitor_flags x
    some ({ cpu with reg := cpu.reg.write Register.A x }, [])
  | 0xA9 =>
    let x := cpu.reg.read Register.A ^^^ cpu.reg.read Register.C
    let cpu := cpu.set_bitor_flags x
    some ({ cpu with reg := cpu.reg.write Register.A x }, [])
  | 0xAA =>
    let x := cpu.reg.read Register.A ^^^ cpu.reg.read Register.D
    let cpu := cpu.set_bitor_flags x
    some ({ cpu with reg := cpu.reg.write Register.A x }, [])
  | 0xAB =>
    let x := cpu.reg.read Register.A ^^^ cpu.reg.read Register.E
    let cpu := cpu.set_bitor_flags x
    some ({ cpu with reg := cpu.reg.write Register.A x }, [])
  | 0xAC =>
    let x := cpu.reg.read Register.A ^^^ cpu.reg.read Register.H
    let cpu := cpu.set_bitor_flags x
    some ({ cpu with reg := cpu.reg.write Register.A x }, [])
  | 0xAD =>
    let x := cpu.reg.read Register.A ^^^ cpu.reg.read Register.L
    let cpu := cpu.set_bitor_flags x
    some ({ cpu with reg := cpu.reg.write Register.A x }, [])
  | 0xAE =>
    let x := cpu.reg.read Register.A ^^^ cpu.ram.read (cpu.reg.read_u16 Register.HL)
    let cpu := cpu.set_bitor_flags x
    some ({ cpu with reg := cpu.reg.write Register.A x }, [])
  | 0xEE =>
    let x := cpu.reg.read Register.A ^^^ instr.param 0
    let cpu := cpu.set_bitor_flags x
    some ({ cpu with reg := cpu.reg.write Register.A x }, [])
  -- Comparison instructions
  | 0xBF => some ((cpu.sub_no_writeback (cpu.reg.read Register.A) (cpu.reg.read Register.A) false).2, [])
  | 0xB8 => some ((cpu.sub_no_writeback (cpu.reg.read Register.A) (cpu.reg.read Register.B) false).2, [])
  | 0xB9 => some ((cpu.sub_no_writeback (cpu.reg.read Register.A) (cpu.reg.read Register.C) false).2, [])
  | 0xBA => some ((cpu.sub_no_writeback (cpu.reg.read Register.A) (cpu.reg.read Register.D) false).2, [])
  | 0xBB => some ((cpu.sub_no_writeback (cpu.reg.read Register.A) (cpu.reg.read Register.E) false).2, [])
  | 0xBC => some ((cpu.sub_no_writeback (cpu.reg.read Register.A) (cpu.reg.read Register.H) false).2, [])
  | 0xBD => some ((cpu.sub_no_writeback (cpu.reg.read Register.A) (cpu.reg.read Register.L) false).2, [])
  | 0xBE => some ((cpu.sub_no_writeback (cpu.reg.read Register.A) (cpu.ram.read (cpu.reg.read_u16 Register.HL)) false).2, [])
  | 0xFE => some ((cpu.sub_no_writeback (cpu.reg.read Register.A) (instr.param 0) false).2, [])
  -- Incrementing
  | 0x3C => some (cpu.add Register.A 1, [])
  | 0x04 => some (cpu.add Register.B 1, [])
  | 0x0C => some (cpu.add Register.C 1, [])
  | 0x14 => some (cpu.add Register.D 1, [])
  | 0x1C => some (cpu.add Register.E 1, [])
  | 0x24 => some (cpu.add Register.H 1, [])
  | 0x2C => some (cpu.add Register.L 1, [])
  | 0x34 =>
    let addr := cpu.reg.read_u16 Register.HL
    let n := cpu.ram.read addr
    let (sum, cpu) := cpu.add_no_writeback n 1 false
    some ({ cpu with ram := cpu.ram.write addr sum }, [])
  -- Decrementing
  | 0x3D => some (cpu.sub Register.A 1, [])
  | 0x05 => some (cpu.sub Register.B 1, [])
  | 0x0D => some (cpu.sub Register.C 1, [])
  | 0x15 => some (cpu.sub Register.D 1, [])
  | 0x1D => some (cpu.sub Register.E 1, [])
  | 0x25 => some (cpu.sub Register.H 1, [])
  | 0x2D => some (cpu.sub Register.L 1, [])
  | 0x35 =>
    let addr := cpu.reg.read_u16 Register.HL
    let n := cpu.ram.read addr
    let (diff, cpu) := cpu.sub_no_writeback n 1 false
    some ({ cpu with ram := cpu.ram.write addr diff }, [])
  -- 16-bit add
  | 0x09 => some (cpu.add_u16 Register.HL (cpu.reg.read_u16 Register.BC), [])
  | 0x19 => some (cpu.add_u16 Register.HL (cpu.reg.read_u16 Register.DE), [])
  | 0x29 => some (cpu.add_u16 Register.HL (cpu.reg.read_u16 Register.HL), [])
  | 0x39 => some (cpu.add_u16 Register.HL (cpu.reg.read_u16 Register.SP), [])
  | 0xE8 => some (cpu.add_u16 Register.SP (instr.param 0), [])
  -- 16-bit increment (may not affect CPU flags?)
  | 0x03 => some (cpu.add_u16 Register.BC 1, [])
  | 0x13 => some (cpu.add_u16 Register.DE 1, [])
  | 0x23 => some (cpu.add_u16 Register.HL 1, [])
  | 0x33 => some (cpu.add_u16 Register.SP 1, [])
  -- 16-bit decrement
  | 0x0B => some (cpu.dec_u16 Register.BC, [])
  | 0x1B => some (cpu.dec_u16 Register.DE, [])
  | 0x2B => some (cpu.dec_u16 Register.HL, [])
  | 0x3B => some (cpu.dec_u16 Register.SP, [])
  -- Bit operations
  | 0xCB =>
    match instr.param 0 with
    -- Swap upper and lower nibbles
    | 0x37 => some (cpu.swap_bits Register.A, [])
    | 0x30 => some (cpu.swap_bits Register.B, [])
    | 0x31 => some (cpu.swap_bits Register.C, [])
    | 0x32 => some (cpu.swap_bits Register.D, [])
    | 0x33 => some (cpu.swap_bits Register.E, [])
    | 0x34 => some (cpu.swap_bits Register.H, [])
    | 0x35 => some (cpu.swap_bits Register.L, [])
    | 0x36 =>
      let addr := cpu.reg.read_u16 Register.HL
      let n := cpu.ram.read addr
      let (x, cpu) := cpu.swap_bits_no_writeback n
      some ({ cpu with ram := cpu.ram.write addr x }, [])
    -- Rotate left
    | 0x07 =>
      let (rot, cpu) := cpu.lrot (cpu.reg.read Register.A)
      some ({ cpu with reg := cpu.reg.write Register.A rot }, [])
    | 0x00 =>
      let (rot, cpu) := cpu.lrot (cpu.reg.read Register.B)
      some ({ cpu with reg := cpu.reg.write Register.B rot }, [])
    | 0x01 =>
      let (rot, cpu) := cpu.lrot (cpu.reg.read Register.C)
      some ({ cpu with reg := cpu.reg.write Register.C rot }, [])
    | 0x02 =>
      let (rot, cpu) := cpu.lrot (cpu.reg.read Register.D)
      some ({ cpu with reg := cpu.reg.write Register.D rot }, [])
    | 0x03 =>
      let (rot, cpu) := cpu.lrot (cpu.reg.read Register.E)
      some ({ cpu with reg := cpu.reg.write Register.E rot }, [])
    | 0x04 =>
      let (rot, cpu) := cpu.lrot (cpu.reg.read Register.H)
      some ({ cpu with reg := cpu.reg.write Register.H rot }, [])
    | 0x05 =>
      let (rot, cpu) := cpu.lrot (cpu.reg.read Register.L)
      some ({ cpu with reg := cpu.reg.write Register.L rot }, [])
    | 0x06 =>
      let addr := cpu.reg.read_u16 Register.HL
      let (rot, cpu) := cpu.lrot (cpu.ram.read addr)
      some ({ cpu with ram := cpu.ram.write addr rot }, [])
    -- Rotate left through carry
    | 0x17 =>
      let (rot, cpu) := cpu.lrot_through (cpu.reg.read Register.A)
      some ({ cpu with reg := cpu.reg.write Register.A rot }, [])
    | 0x10 =>
      let (rot, cpu) := cpu.lrot_through (cpu.reg.read Register.B)
      some ({ cpu with reg := cpu.reg.write Register.B rot }, [])
    | 0x11 =>
      let (rot, cpu) := cpu.lrot_through (cpu.reg.read Register.C)
      some ({ cpu with reg := cpu.reg.write Register.C rot }, [])
    | 0x12 =>
      let (rot, cpu) := cpu.lrot_through (cpu.reg.read Register.D)
      some ({ cpu with reg := cpu.reg.write Register.D rot }, [])
    | 0x13 =>
      let (rot, cpu) := cpu.lrot_through (cpu.reg.read Register.E)
      some ({ cpu with reg := cpu.reg.write Register.E rot }, [])
    | 0x14 =>
      let (rot, cpu) := cpu.lrot_through (cpu.reg.read Register.H)
      some ({ cpu with reg := cpu.reg.write Register.H rot }, [])
    | 0x15 =>
      let (rot, cpu) := cpu.lrot_through (cpu.reg.read Register.L)
      some ({ cpu with reg := cpu.reg.write Register.L rot }, [])
    | 0x16 =>
      let addr := cpu.reg.read_u16 Register.HL
      let (rot, cpu) := cpu.lrot_through (cpu.ram.read addr)
      some ({ cpu with ram := cpu.ram.write addr rot }, [])
    -- Rotate right
    | 0x0F =>
      let (rot, cpu) := cpu.rrot (cpu.reg.read Register.A)
      some ({ cpu with reg := cpu.reg.write Register.A rot }, [])
    | 0x08 =>
      let (rot, cpu) := cpu.rrot (cpu.reg.read Register.B)
      some ({ cpu with reg := cpu.reg.write Register.B rot }, [])
    | 0x09 =>
      let (rot, cpu) := cpu.rrot (cpu.reg.read Register.C)
      some ({ cpu with reg := cpu.reg.write Register.C rot }, [])
    | 0x0A =>
      let (rot, cpu) := cpu.rrot (cpu.reg.read Register.D)
      some ({ cpu with reg := cpu.reg.write Register.D rot }, [])
    | 0x0B =>
      let (rot, cpu) := cpu.rrot (cpu.reg.read Register.E)
      some ({ cpu with reg := cpu.reg.write Register.E rot }, [])
    | 0x0C =>
      let (rot, cpu) := cpu.rrot (cpu.reg.read Register.H)
      some ({ cpu with reg := cpu.reg.write Register.H rot }, [])
    | 0x0D =>
      let (rot, cpu) := cpu.rrot (cpu.reg.read Register.L)
      some ({ cpu with reg := cpu.reg.write Register.L rot }, [])
    | 0x0E =>
      let addr := cpu.reg.read_u16 Register.HL
      let (rot, cpu) := cpu.rrot (cpu.ram.read addr)
      some ({ cpu with ram := cpu.ram.write addr rot }, [])
    -- Rotate right through carry
    | 0x1F =>
      let (rot, cpu) := cpu.rrot_through (cpu.reg.read Register.A)
      some ({ cpu with reg := cpu.reg.write Register.A rot }, [])
    | 0x18 =>
      let (rot, cpu) := cpu.rrot_through (cpu.reg.read Register.B)
      some ({ cpu with reg := cpu.reg.write Register.B rot }, [])
    | 0x19 =>
      let (rot, cpu) := cpu.rrot_through (cpu.reg.read Register.C)
      some ({ cpu with reg := cpu.reg.write Register.C rot }, [])
    | 0x1A =>
      let (rot, cpu) := cpu.rrot_through (cpu.reg.read Register.D)
      some ({ cpu with reg := cpu.reg.write Register.D rot }, [])
    | 0x1B =>
      let (rot, cpu) := cpu.rrot_through (cpu.reg.read Register.E)
      some ({ cpu with reg := cpu.reg.write Register.E rot }, [])
    | 0x1C =>
      let (rot, cpu) := cpu.rrot_through (cpu.reg.read Register.H)
      some ({ cpu with reg := cpu.reg.write Register.H rot }, [])
    | 0x1D =>
      let (rot, cpu) := cpu.rrot_through (cpu.reg.read Register.L)
      some ({ cpu with reg := cpu.reg.write Register.L rot }, [])
    | 0x1E =>
      let addr := cpu.reg.read_u16 Register.HL
      let (rot, cpu) := cpu.rrot_through (cpu.ram.read addr)
      some ({ cpu with ram := cpu.ram.write addr rot }, [])
    -- Shift left
    | 0x27 =>
      let (shift, cpu) := cpu.lshift (cpu.reg.read Register.A)
      some ({ cpu with reg := cpu.reg.write Register.A shift }, [])
    | 0x20 =>
      let (shift, cpu) := cpu.lshift (cpu.reg.read Register.B)
      some ({ cpu with reg := cpu.reg.write Register.B shift }, [])
    | 0x21 =>
      let (shift, cpu) := cpu.lshift (cpu.reg.read Register.C)
      some ({ cpu with reg := cpu.reg.write Register.C shift }, [])
    | 0x22 =>
      let (shift, cpu) := cpu.lshift (cpu.reg.read Register.D)
      some ({ cpu with reg := cpu.reg.write Register.D shift }, [])
    | 0x23 =>
      let (shift, cpu) := cpu.lshift (cpu.reg.read Register.E)
      some ({ cpu with reg := cpu.reg.write Register.E shift }, [])
    | 0x24 =>
      let (shift, cpu) := cpu.lshift (cpu.reg.read Register.H)
      some ({ cpu with reg := cpu.reg.write Register.H shift }, [])
    | 0x25 =>
      let (shift, cpu) := cpu.lshift (cpu.reg.read Register.L)
      some ({ cpu with reg := cpu.reg.write Register.L shift }, [])
    | 0x26 =>
      let addr := cpu.reg.read_u16 Register.HL
      let (shift, cpu) := cpu.lshift (cpu.ram.read addr)
      some ({ cpu with ram := cpu.ram.write addr shift }, [])
    -- Shift right arithmetic
    | 0x2F =>
      let (shift, cpu) := cpu.rshift_arithmetic (cpu.reg.read Register.A)
      some ({ cpu with reg := cpu.reg.write Register.A shift }, [])
    | 0x28 =>
      let (shift, cpu) := cpu.rshift_arithmetic (cpu.reg.read Register.B)
      some ({ cpu with reg := cpu.reg.write Register.B shift }, [])
    | 0x29 =>
      let (shift, cpu) := cpu.rshift_arithmetic (cpu.reg.read Register.C)
      some ({ cpu with reg := cpu.reg.write Register.C shift }, [])
    | 0x2A =>
      let (shift, cpu) := cpu.rshift_arithmetic (cpu.reg.read Register.D)
      some ({ cpu with reg := cpu.reg.write Register.D shift }, [])
    | 0x2B =>
      let (shift, cpu) := cpu.rshift_arithmetic (cpu.reg.read Register.E)
      some ({ cpu with reg := cpu.reg.write Register.E shift }, [])
    | 0x2C =>
      let (shift, cpu) := cpu.rshift_arithmetic (cpu.reg.read Register.H)
      some ({ cpu with reg := cpu.reg.write Register.H shift }, [])
    | 0x2D =>
      let (shift, cpu) := cpu.rshift_arithmetic (cpu.reg.read Register.L)
      some ({ cpu with reg := cpu.reg.write Register.L shift }, [])
    | 0x2E =>
      let addr := cpu.reg.read_u16 Register.HL
      let (shift, cpu) := cpu.rshift_arithmetic (cpu.ram.read addr)
      some ({ cpu with ram := cpu.ram.write addr shift }, [])
    -- Shift right logical
    | 0x3F =>
      let (shift, cpu) := cpu.rshift_logical (cpu.reg.read Register.A)
      some ({ cpu with reg := cpu.reg.write Register.A shift }, [])
    | 0x38 =>
      let (shift, cpu) := cpu.rshift_logical (cpu.reg.read Register.B)
      some ({ cpu with reg := cpu.reg.write Register.B shift }, [])
    | 0x39 =>
      let (shift, cpu) := cpu.rshift_logical (cpu.reg.read Register.C)
      some ({ cpu with reg := cpu.reg.write Register.C shift }, [])
    | 0x3A =>
      let (shift, cpu) := cpu.rshift_logical (cpu.reg.read Register.D)
      some ({ cpu with reg := cpu.reg.write Register.D shift }, [])
    | 0x3B =>
      let (shift, cpu) := cpu.rshift_logical (cpu.reg.read Register.E)
      some ({ cpu with reg := cpu.reg.write Register.E shift }, [])
    | 0x3C =>
      let (shift, cpu) := cpu.rshift_logical (cpu.reg.read Register.H)
      some ({ cpu with reg := cpu.reg.write Register.H shift }, [])
    | 0x3D =>
      let (shift, cpu) := cpu.rshift_logical (cpu.reg.read Register.L)
      some ({ cpu with reg := cpu.reg.write Register.L shift }, [])
    | 0x3E =>
      let addr := cpu.reg.read_u16 Register.HL
      let (shift, cpu) := cpu.rshift_logical (cpu.ram.read addr)
      some ({ cpu with ram := cpu.ram.write addr shift }, [])
    -- unimplemented CB sub-opcode: the source aborts
    | _ => none
  -- DAA instruction: unimplemented, reported only
  | 0x27 => some (cpu, [Diag.daaUnimplemented])
  -- Complement register
  | 0x2F =>
    let x := cpu.reg.read Register.A ^^^ 0xFF
    let r := cpu.reg.set_flag RegFlag.Subtract true
    let r := r.set_flag RegFlag.HalfCarry true
    some ({ cpu with reg := r.write Register.A x }, [])
  -- Complement carry flag
  | 0x3F =>
    let c := cpu.reg.get_flag RegFlag.Carry
    let r := cpu.reg.set_flag RegFlag.Subtract false
    let r := r.set_flag RegFlag.HalfCarry false
    let r := r.set_flag RegFlag.Carry (!c)
    some ({ cpu with reg := r }, [])
  -- Set carry flag
  | 0x37 =>
    let r := cpu.reg.set_flag RegFlag.Subtract false
    let r := r.set_flag RegFlag.HalfCarry false
    let r := r.set_flag RegFlag.Carry true
    some ({ cpu with reg := r }, [])
  -- NOP
  | 0x00 => some (cpu, [])
  -- Halt CPU
  | 0x76 => some ({ cpu with state := CpuState.Halted }, [])
  -- Stop CPU (any other operand byte aborts in the source)
  | 0x10 =>
    if instr.param 0 = 0x00 then some ({ cpu with state := CpuState.Stopped }, [])
    else none
  -- Enable/disable interrupts
  | 0xF3 => some ({ cpu with intlevel := false }, [])
  | 0xFB => some ({ cpu with intlevel := true }, [])
  -- Left rotate A
  | 0x07 =>
    let (rot, cpu) := cpu.lrot (cpu.reg.read Register.A)
    some ({ cpu with reg := cpu.reg.write Register.A rot }, [])
  -- Left rotate A through carry
  | 0x17 =>
    let (rot, cpu) := cpu.lrot_through (cpu.reg.read Register.A)
    some ({ cpu with reg := cpu.reg.write Register.A rot }, [])
  -- Right rotate A
  | 0x0F =>
    let (rot, cpu) := cpu.rrot (cpu.reg.read Register.A)
    some ({ cpu with reg := cpu.reg.write Register.A rot }, [])
  -- Right rotate A through carry
  | 0x1F =>
    let (rot, cpu) := cpu.rrot_through (cpu.reg.read Register.A)
    some ({ cpu with reg := cpu.reg.write Register.A rot }, [])
  -- unimplemented opcode: the source aborts
  | _ => none

/-- `Cpu::do_instr`: early return while halted/stopped (warning if
interrupts are disabled), otherwise decode, dispatch, and advance the
clock by the instruction's cycle cost. -/
def Cpu.do_instr (cpu : Cpu) : Option (Nat × Cpu × List Diag) :=
  match cpu.state with
  | CpuState.Halted | CpuState.Stopped =>
    some (0, cpu, if cpu.intlevel then [] else [Diag.stuckWarning])
  | CpuState.Running =>
    let (instr, reg2, pdiags) := Instr.parse cpu.reg cpu.ram
    let cpu1 := { cpu with reg := reg2 }
    match cpu1.run_instr instr with
    | none => none
    | some (cpu2, ediags) =>
      let cycles := instr.cycles
      some (cycles, { cpu2 with clock := cpu2.clock + cycles }, pdiags ++ ediags)

/-! ## Interrupt delivery (absent from the repository) -/

/-- Modelled from the spec: the "small enumeration (at minimum:
vertical-blank signal)" accepted by the interrupt-delivery entry point.
No such enumeration exists anywhere in the repository's source. -/
inductive Interrupt
  | VBlank

/-- Modelled from the spec: "an interrupt-delivery entry point … that the
engine uses to wake from Halted state and force a return to Running", and
"both Halted and Stopped are exited only by an external interrupt signal
(modeled as a method the surrounding system calls)".  The repository
declares the `Halted`/`Stopped` states (with comments stating they are
reset by an interrupt) but contains no method implementing the delivery. -/
def Cpu.deliver_interrupt (cpu : Cpu) (i : Interrupt) : Cpu :=
  match i, cpu.state with
  | Interrupt.VBlank, CpuState.Halted => { cpu with state := CpuState.Running }
  | Interrupt.VBlank, CpuState.Stopped => { cpu with state := CpuState.Running }
  | Interrupt.VBlank, CpuState.Running => cpu

/-! ## Concrete machine states used by witnesses and counterexamples -/

/-- A halted CPU with interrupts disabled (still at the reset state
otherwise). -/
def stuck_cpu : Cpu :=
  { Cpu.new with state := CpuState.Halted, intlevel := false }

/-- A halted CPU with interrupts enabled; memory is all zero, so the next
opcode is 0x00 (NOP). -/
def halted_cpu : Cpu :=
  { Cpu.new with state := CpuState.Halted }

/-- An address space whose write observer is fully clean. -/
def clean_observer_space : AddressSpace :=
  { AddressSpace.new with observer := ⟨false, false, false, false⟩ }

/-- An address space holding the byte 7 inside source page 0x12 (at
0x1234), with a clean observer. -/
def dma_demo_space : AddressSpace :=
  { AddressSpace.new with
    main_ram := upd (fun _ => 0) 0x1234 7,
    observer := ⟨false, false, false, false⟩ }

/-! ## Helper lemmas: bitwise operations as arithmetic -/

theorem and_0xF_eq_mod (x : Nat) : x &&& 0xF = x % 16 := by
  have h := Nat.and_pow_two_sub_one_eq_mod x 4
  norm_num at h
  exact h

theorem and_0xFF_eq_mod (x : Nat) : x &&& 0xFF = x % 256 := by
  have h := Nat.and_pow_two_sub_one_eq_mod x 8
  norm_num at h
  exact h

theorem and_0xFF00_shift (v : Nat) : (v &&& 0xFF00) >>> 8 = v / 256 % 256 := by
  have hb : ∀ i : Nat, Nat.testBit 0xFF00 (8 + i) = Nat.testBit 0xFF i := by
    intro i
    rw [show (0xFF00 : Nat) = 0xFF <<< 8 by decide, Nat.testBit_shiftLeft]
    simp
  have h1 : (v &&& 0xFF00) >>> 8 = (v >>> 8) &&& 0xFF := by
    apply Nat.eq_of_testBit_eq
    intro i
    simp only [Nat.testBit_shiftRight, Nat.testBit_and]
    rw [hb]
  rw [h1, and_0xFF_eq_mod, Nat.shiftRight_eq_div_pow]

theorem hi_or_lo (hi lo : Nat) (hlo : lo < 256) : hi <<< 8 ||| lo = hi * 256 + lo := by
  have h := Nat.mul_add_lt_is_or (b := lo) (i := 8) (by norm_num; exact hlo) hi
  rw [Nat.shiftLeft_eq]
  norm_num at h ⊢
  rw [Nat.mul_comm hi 256]
  exact h.symm

/-- Recomposing the hi/lo decomposition used by `RegData::write_u16` gives
back the value, for values that fit in 16 bits. -/
theorem hi_lo_recompose (v : Nat) (hv : v < 65536) :
    ((v &&& 0xFF00) >>> 8) <<< 8 ||| (v &&& 0xFF) = v := by
  rw [and_0xFF00_shift, and_0xFF_eq_mod, hi_or_lo _ _ (Nat.mod_lt _ (by norm_num))]
  omega

/-! ## Helper lemmas: the flag byte -/

-- The bitwise facts about the four flag masks, settled once by
-- evaluation over all byte values.
set_option maxRecDepth 8192 in
theorem flagbyte_facts : ∀ x < 256, ∀ m ∈ [0x80, 0x40, 0x20, 0x10],
    (x ||| m < 256) ∧ (x &&& (m ^^^ 0xFF) < 256)
    ∧ ((x ||| m) &&& m ≠ 0) ∧ ((x &&& (m ^^^ 0xFF)) &&& m = 0)
    ∧ (∀ m2 ∈ [0x80, 0x40, 0x20, 0x10], m2 ≠ m →
        ((x ||| m) &&& m2 = x &&& m2) ∧ ((x &&& (m ^^^ 0xFF)) &&& m2 = x &&& m2))
    ∧ (x % 16 = 0 → (x ||| m) % 16 = 0 ∧ (x &&& (m ^^^ 0xFF)) % 16 = 0) := by
  decide

theorem mask_mem (fl : RegFlag) : fl.mask ∈ [0x80, 0x40, 0x20, 0x10] := by
  cases fl <;> decide

theorem mask_injective (fl fl' : RegFlag) (h : fl' ≠ fl) : fl'.mask ≠ fl.mask := by
  cases fl <;> cases fl' <;> (revert h; decide)

theorem set_flag_flag_true (r : RegData) (fl : RegFlag) :
    (r.set_flag fl true).flag = r.flag ||| fl.mask := rfl

theorem set_flag_flag_false (r : RegData) (fl : RegFlag) :
    (r.set_flag fl false).flag = r.flag &&& (fl.mask ^^^ 0xFF) := rfl

theorem get_flag_eq (r : RegData) (fl : RegFlag) :
    r.get_flag fl = (r.flag &&& fl.mask != 0) := rfl

theorem set_flag_flag_lt (r : RegData) (hr : r.flag < 256) (fl : RegFlag) (b : Bool) :
    (r.set_flag fl b).flag < 256 := by
  have h := flagbyte_facts r.flag hr fl.mask (mask_mem fl)
  cases b
  · rw [set_flag_flag_false]
    exact h.2.1
  · rw [set_flag_flag_true]
    exact h.1

theorem get_flag_set_flag (r : RegData) (hr : r.flag < 256) (fl fl' : RegFlag) (b : Bool) :
    (r.set_flag fl b).get_flag fl' = if fl' = fl then b else r.get_flag fl' := by
  have h := flagbyte_facts r.flag hr fl.mask (mask_mem fl)
  by_cases hf : fl' = fl
  · subst hf
    rw [if_pos rfl]
    cases b
    · rw [get_flag_eq, set_flag_flag_false]
      simp [h.2.2.2.1]
    · rw [get_flag_eq, set_flag_flag_true]
      simp [bne_iff_ne, h.2.2.1]
  · rw [if_neg hf]
    have hne := mask_injective fl fl' hf
    have h2 := h.2.2.2.2.1 fl'.mask (mask_mem fl') hne
    cases b
    · rw [get_flag_eq, get_flag_eq, set_flag_flag_false, h2.2]
    · rw [get_flag_eq, get_flag_eq, set_flag_flag_true, h2.1]

/-- `set_flag` only touches the flag byte, so every other register
accessor is unchanged; in particular the AF pair. -/
theorem set_flag_read_u16 (r : RegData) (fl : RegFlag) (b : Bool) (reg : Register) :
    (r.set_flag fl b).read_u16 reg = r.read_u16 reg := by
  cases b <;> cases reg <;> rfl

theorem set_flag_low_nibble (r : RegData) (hr : r.flag < 256) (fl : RegFlag) (b : Bool)
    (h : r.flag % 16 = 0) : (r.set_flag fl b).flag % 16 = 0 := by
  have hm := flagbyte_facts r.flag hr fl.mask (mask_mem fl)
  cases b
  · rw [set_flag_flag_false]
    exact (hm.2.2.2.2.2 h).2
  · rw [set_flag_flag_true]
    exact (hm.2.2.2.2.2 h).1

/-- Flag values after the Zero/Subtract/HalfCarry/Carry `set_flag` chain
shared by all ALU helpers. -/
theorem get_flags_after_alu (r : RegData) (hr : r.flag < 256) (z s hc c : Bool) :
    ((((r.set_flag RegFlag.Zero z).set_flag RegFlag.Subtract s).set_flag
        RegFlag.HalfCarry hc).set_flag RegFlag.Carry c).get_flag RegFlag.Zero = z
    ∧ ((((r.set_flag RegFlag.Zero z).set_flag RegFlag.Subtract s).set_flag
        RegFlag.HalfCarry hc).set_flag RegFlag.Carry c).get_flag RegFlag.Subtract = s
    ∧ ((((r.set_flag RegFlag.Zero z).set_flag RegFlag.Subtract s).set_flag
        RegFlag.HalfCarry hc).set_flag RegFlag.Carry c).get_flag RegFlag.HalfCarry = hc
    ∧ ((((r.set_flag RegFlag.Zero z).set_flag RegFlag.Subtract s).set_flag
        RegFlag.HalfCarry hc).set_flag RegFlag.Carry c).get_flag RegFlag.Carry = c := by
  have h1 := set_flag_flag_lt r hr RegFlag.Zero z
  have h2 := set_flag_flag_lt _ h1 RegFlag.Subtract s
  have h3 := set_flag_flag_lt _ h2 RegFlag.HalfCarry hc
  refine ⟨?_, ?_, ?_, ?_⟩ <;>
    simp [get_flag_set_flag, h1, h2, h3, hr]

-- Reads after a committed write: same address sees the new byte, any other
-- address is untouched (both for addresses outside the boot overlay).
theorem read_sys_write_self (s : AddressSpace) (addr v : Nat)
    (h : ¬ (addr < 0x100 ∧ s.bios_readable = true)) :
    (s.sys_write addr v).read addr = v := by
  simp only [AddressSpace.sys_write, AddressSpace.read, upd]
  rw [if_neg h]
  simp

theorem read_sys_write_other (s : AddressSpace) (addr addr2 v : Nat) (hne : addr2 ≠ addr)
    (h : ¬ (addr2 < 0x100 ∧ s.bios_readable = true)) :
    (s.sys_write addr v).read addr2 = s.read addr2 := by
  simp only [AddressSpace.sys_write, AddressSpace.read, upd]
  rw [if_neg h, if_neg h, if_neg hne]

/-! ## C2: echo aliasing -/

/-- C2 (counterexample): on a fresh address space, writing 5 at the
primary address 0xC000 is not visible at the echo address 0xE000:
`AddressSpace::read` performs no echo redirection, so the claimed
primary-to-echo direction of the aliasing fails. -/
theorem echo_alias_counterexample :
    ¬ ((AddressSpace.new.write 0xC000 5).read 0xE000 = 5) := by
  decide

/-- C2 (amended): echo aliasing holds in the write-to-echo direction only.
For every offset k with 0xE000 + k in the echo range, a write to
0xE000 + k is redirected and lands at 0xC000 + k, so reading 0xC000 + k
returns the written byte; but a write to 0xC000 + k leaves the byte read
at 0xE000 + k unchanged (reads are never redirected). -/
theorem echo_alias_write_direction (s : AddressSpace) (k v : Nat) (hk : k ≤ 0x1DFF) :
    ((s.write (0xE000 + k) v).read (0xC000 + k) = v)
    ∧ ((s.write (0xC000 + k) v).read (0xE000 + k) = s.read (0xE000 + k)) := by
  constructor
  · unfold AddressSpace.write IOREG_DIV IOREG_LY IOREG_DMA IOREG_BIOSRW
    have c1 : ¬ (0xE000 + k ≤ 0x7FFF) := by omega
    have c2 : ¬ (0xA000 ≤ 0xE000 + k ∧ 0xE000 + k ≤ 0xBFFF) := by omega
    have c3 : 0xE000 ≤ 0xE000 + k ∧ 0xE000 + k ≤ 0xFDFF := by omega
    rw [if_neg c1, if_neg c2, if_pos c3, show 0xE000 + k - 0x2000 = 0xC000 + k by omega]
    exact read_sys_write_self s (0xC000 + k) v (by rintro ⟨h1, -⟩; omega)
  · unfold AddressSpace.write IOREG_DIV IOREG_LY IOREG_DMA IOREG_BIOSRW
    have c1 : ¬ (0xC000 + k ≤ 0x7FFF) := by omega
    have c2 : ¬ (0xA000 ≤ 0xC000 + k ∧ 0xC000 + k ≤ 0xBFFF) := by omega
    have c3 : ¬ (0xE000 ≤ 0xC000 + k ∧ 0xC000 + k ≤ 0xFDFF) := by omega
    have c4 : ¬ (0xC000 + k = 0xFF04) := by omega
    have c5 : ¬ (0xC000 + k = 0xFF44) := by omega
    have c6 : ¬ (0xC000 + k = 0xFF46) := by omega
    have c7 : ¬ (0xC000 + k = 0xFF50) := by omega
    rw [if_neg c1, if_neg c2, if_neg c3, if_neg c4, if_neg c5, if_neg c6, if_neg c7]
    exact read_sys_write_other s (0xC000 + k) (0xE000 + k) v (by omega)
      (by rintro ⟨h1, -⟩; omega)

theorem echo_alias_write_direction_witness :
    (0 : Nat) ≤ 0x1DFF
    ∧ ((AddressSpace.new.write (0xE000 + 0) 9).read (0xC000 + 0) = 9)
    ∧ ((AddressSpace.new.write (0xC000 + 0) 9).read (0xE000 + 0)
        = AddressSpace.new.read (0xE000 + 0)) :=
  ⟨by decide, (echo_alias_write_direction AddressSpace.new 0 9 (by decide)).1,
    (echo_alias_write_direction AddressSpace.new 0 9 (by decide)).2⟩

/-! ## C3: DMA trigger -/

set_option maxRecDepth 100000 in
/-- C3 (code bug): evaluating `write(0xFF46, 0x12)` on `dma_demo_space`.
The 256-byte copy does happen (0xFE34 receives the byte originally at
0x1234), but the trigger byte is ALSO stored at 0xFF46: the `IOREG_DMA`
arm yields `rw = true`, so `sys_write(0xFF46, 0x12)` runs after the copy,
contradicting both the claim and the source's own comment
("Don't write, but begin a DMA instead").  The copy itself writes
`main_ram`/`backup_ram` by direct indexing, bypassing `sys_write`, so the
write observer is never invoked for the 256 destination addresses. -/
theorem dma_write_stores_trigger_byte :
    ((dma_demo_space.write IOREG_DMA 0x12).read 0xFE34 = dma_demo_space.read 0x1234)
    ∧ (dma_demo_space.read IOREG_DMA = 0)
    ∧ ((dma_demo_space.write IOREG_DMA 0x12).read IOREG_DMA = 0x12) := by
  decide

/-! ## C5: boot overlay gating -/

/-- C5: while the boot-enable latch is set, every read below 0x100 returns
the boot-overlay byte (whatever the backing RAM holds there); writing 1
to the boot-overlay-disable register 0xFF50 clears the latch and stores
nothing (backing RAM and observer unchanged), after which reads below
0x100 return the backing byte. -/
theorem boot_overlay_gating (s : AddressSpace) (addr : Nat)
    (ha : addr < 0x100) (hb : s.bios_readable = true) :
    (s.read addr = s.bios addr)
    ∧ ((s.write IOREG_BIOSRW 1).bios_readable = false)
    ∧ ((s.write IOREG_BIOSRW 1).read addr = s.main_ram addr)
    ∧ ((s.write IOREG_BIOSRW 1).main_ram = s.main_ram)
    ∧ ((s.write IOREG_BIOSRW 1).observer = s.observer) := by
  have hw : s.write IOREG_BIOSRW 1 = { s with bios_readable := false } := by
    unfold AddressSpace.write IOREG_DIV IOREG_LY IOREG_DMA IOREG_BIOSRW
    rw [if_neg (by omega : ¬ ((0xFF50 : Nat) ≤ 0x7FFF)),
      if_neg (by omega : ¬ ((0xA000 : Nat) ≤ 0xFF50 ∧ (0xFF50 : Nat) ≤ 0xBFFF)),
      if_neg (by omega : ¬ ((0xE000 : Nat) ≤ 0xFF50 ∧ (0xFF50 : Nat) ≤ 0xFDFF)),
      if_neg (by omega : ¬ ((0xFF50 : Nat) = 0xFF04)),
      if_neg (by omega : ¬ ((0xFF50 : Nat) = 0xFF44)),
      if_neg (by omega : ¬ ((0xFF50 : Nat) = 0xFF46)),
      if_pos (rfl : (0xFF50 : Nat) = 0xFF50), if_pos ⟨hb, rfl⟩]
  refine ⟨?_, ?_, ?_, ?_, ?_⟩
  · unfold AddressSpace.read
    rw [if_pos ⟨ha, hb⟩]
  · rw [hw]
  · rw [hw]
    simp [AddressSpace.read]
  · rw [hw]
  · rw [hw]

theorem boot_overlay_gating_witness :
    ((0 : Nat) < 0x100 ∧ AddressSpace.new.bios_readable = true)
    ∧ ((AddressSpace.new.read 0 = AddressSpace.new.bios 0)
      ∧ ((AddressSpace.new.write IOREG_BIOSRW 1).bios_readable = false)
      ∧ ((AddressSpace.new.write IOREG_BIOSRW 1).read 0 = AddressSpace.new.main_ram 0)
      ∧ ((AddressSpace.new.write IOREG_BIOSRW 1).main_ram = AddressSpace.new.main_ram)
      ∧ ((AddressSpace.new.write IOREG_BIOSRW 1).observer = AddressSpace.new.observer)) :=
  ⟨⟨by decide, by decide⟩, boot_overlay_gating AddressSpace.new 0 (by decide) (by decide)⟩

/-! ## C7: write-observer dirty regions -/

/-- C7 (counterexample): 0x8800 lies inside the signed tile-data region,
yet a committed bus write there on a fully clean observer leaves the
signed-region flag clear — the `record_write` match tests the unsigned
range first, and the two tile-data ranges overlap on 0x8800-0x8FFF. -/
theorem record_write_overlap_counterexample :
    (REGION_TILEDATA_SIGNED_BEG ≤ 0x8800 ∧ (0x8800 : Nat) ≤ REGION_TILEDATA_SIGNED_END)
    ∧ ((clean_observer_space.sys_write 0x8800 1).observer.td_signed_dirty = false)
    ∧ ((clean_observer_space.sys_write 0x8800 1).observer.td_unsigned_dirty = true) := by
  decide

/-- C7 (amended): a committed bus write (`sys_write`) marks exactly one
region, picked by first match: addresses 0x8000-0x8FFF set the unsigned
tile-data flag (including the 0x8800-0x8FFF overlap, where the signed
flag is NOT set), 0x9000-0x97FF set the signed tile-data flag,
0x9800-0x9BFF tile map 0, 0x9C00-0x9FFF tile map 1; no flag is ever
cleared by a write. -/
theorem record_write_characterization (s : AddressSpace) (addr v : Nat) :
    (s.sys_write addr v).observer =
      ⟨ s.observer.td_signed_dirty || decide (0x9000 ≤ addr ∧ addr ≤ 0x97FF),
        s.observer.td_unsigned_dirty || decide (0x8000 ≤ addr ∧ addr ≤ 0x8FFF),
        s.observer.tmap0_dirty || decide (0x9800 ≤ addr ∧ addr ≤ 0x9BFF),
        s.observer.tmap1_dirty || decide (0x9C00 ≤ addr ∧ addr ≤ 0x9FFF) ⟩ := by
  show s.observer.record_write addr = _
  cases hO : s.observer
  unfold WriteObserver.record_write REGION_TILEDATA_UNSIGNED_BEG REGION_TILEDATA_UNSIGNED_END
    REGION_TILEDATA_SIGNED_BEG REGION_TILEDATA_SIGNED_END REGION_TILEMAP0_BEG
    REGION_TILEMAP0_END REGION_TILEMAP1_BEG REGION_TILEMAP1_END
  split_ifs with h1 h2 h3 h4 <;>
    · simp only [WriteObserver.mk.injEq]
      refine ⟨?_, ?_, ?_, ?_⟩ <;>
        first
          | rw [decide_eq_true (by omega), Bool.or_true]
          | rw [decide_eq_false (by omega), Bool.or_false]

/-! ## C6: flags versus the AF pair -/

/-- C6 (counterexample): after `set_flag(Zero, true)` on the reset
register file, `get_flag(Zero)` holds but bit 7 of the low byte of AF is
clear — so the low byte of AF does not reflect the Zero flag. -/
theorem af_flags_counterexample :
    ((RegData.new.set_flag RegFlag.Zero true).get_flag RegFlag.Zero = true)
    ∧ (Nat.testBit ((RegData.new.set_flag RegFlag.Zero true).read_u16 Register.AF &&& 0xFF) 7
        = false) := by
  decide

/-- C6 (amended): the four flags are stored as mask bits
0x80/0x40/0x20/0x10 of a separate flag byte, not in the F half of AF:
`set_flag` leaves `read_u16(AF)` unchanged, `get_flag` reads back exactly
the bit just set, the other flags are untouched, and the flag byte's low
nibble remains zero. -/
theorem set_flag_separate_flag_byte (r : RegData) (hr : r.flag < 256)
    (fl : RegFlag) (b : Bool) :
    ((r.set_flag fl b).read_u16 Register.AF = r.read_u16 Register.AF)
    ∧ ((r.set_flag fl b).get_flag fl = b)
    ∧ (∀ fl2 : RegFlag, fl2 ≠ fl → (r.set_flag fl b).get_flag fl2 = r.get_flag fl2)
    ∧ (r.flag % 16 = 0 → (r.set_flag fl b).flag % 16 = 0) := by
  refine ⟨set_flag_read_u16 r fl b Register.AF, ?_, ?_, set_flag_low_nibble r hr fl b⟩
  · rw [get_flag_set_flag r hr fl fl b, if_pos rfl]
  · intro fl2 h2
    rw [get_flag_set_flag r hr fl fl2 b, if_neg h2]

theorem set_flag_separate_flag_byte_witness :
    (RegData.new.flag < 256)
    ∧ (((RegData.new.set_flag RegFlag.Zero true).read_u16 Register.AF
        = RegData.new.read_u16 Register.AF)
      ∧ ((RegData.new.set_flag RegFlag.Zero true).get_flag RegFlag.Zero = true)
      ∧ (∀ fl2 : RegFlag, fl2 ≠ RegFlag.Zero →
          (RegData.new.set_flag RegFlag.Zero true).get_flag fl2 = RegData.new.get_flag fl2)
      ∧ (RegData.new.flag % 16 = 0 →
          (RegData.new.set_flag RegFlag.Zero true).flag % 16 = 0)) :=
  ⟨by decide, set_flag_separate_flag_byte RegData.new (by decide) RegFlag.Zero true⟩

/-! ## C10: 16-bit decrement -/

theorem read_u16_write_u16_roundtrip (r : RegData) (v : Nat) (hv : v < 65536)
    (reg : Register)
    (h : reg = Register.BC ∨ reg = Register.DE ∨ reg = Register.HL ∨ reg = Register.SP) :
    (r.write_u16 reg v).read_u16 reg = v := by
  rcases h with h | h | h | h <;> subst h <;>
    simp only [RegData.write_u16, RegData.read_u16] <;>
    exact hi_lo_recompose v hv

/-- C10: the 16-bit decrement helper dispatched by opcodes
0x0B/0x1B/0x2B/0x3B: a pair holding 0 stays 0 (the value is clamped, not
wrapped to 0xFFFF); a nonzero pair is decremented by one; the flag byte
(hence every flag) is untouched in both cases. -/
theorem dec_u16_clamps_preserves_flags (cpu : Cpu) (reg : Register)
    (h : reg = Register.BC ∨ reg = Register.DE ∨ reg = Register.HL ∨ reg = Register.SP)
    (hb : cpu.reg.b < 256) (hc : cpu.reg.c < 256) (hd : cpu.reg.d < 256)
    (he : cpu.reg.e < 256) (hh : cpu.reg.h < 256) (hl : cpu.reg.l < 256)
    (hsp : cpu.reg.sp < 65536) :
    ((cpu.dec_u16 reg).reg.read_u16 reg
      = if cpu.reg.read_u16 reg = 0 then 0 else cpu.reg.read_u16 reg - 1)
    ∧ ((cpu.dec_u16 reg).reg.flag = cpu.reg.flag) := by
  have hx : cpu.reg.read_u16 reg < 65536 := by
    rcases h with h | h | h | h <;> subst h <;> simp only [RegData.read_u16]
    · rw [hi_or_lo _ _ hc]
      omega
    · rw [hi_or_lo _ _ he]
      omega
    · rw [hi_or_lo _ _ hl]
      omega
    · exact hsp
  constructor
  · exact read_u16_write_u16_roundtrip cpu.reg _ (by split <;> omega) reg h
  · rcases h with h | h | h | h <;> subst h <;> rfl

/-! ## C4: 8-bit addition flag law -/

/-- C4: the adder shared by ADD/ADC/INC (`add_no_writeback`, on which
`add_with_carry` and `add` are built): result `(a + b + carry_in) mod 256`
with Zero iff the result byte is 0, Subtract false, HalfCarry iff the
nibble sum with carry-in exceeds 0xF, Carry iff the full sum exceeds
0xFF. -/
theorem add_no_writeback_flag_law (cpu : Cpu) (a n : Nat) (c : Bool)
    (ha : a < 256) (hn : n < 256) (hf : cpu.reg.flag < 256) :
    ((cpu.add_no_writeback a n c).1 = (a + n + (if c then 1 else 0)) % 256)
    ∧ ((cpu.add_no_writeback a n c).2.reg.get_flag RegFlag.Zero = true
        ↔ (a + n + (if c then 1 else 0)) % 256 = 0)
    ∧ ((cpu.add_no_writeback a n c).2.reg.get_flag RegFlag.Subtract = false)
    ∧ ((cpu.add_no_writeback a n c).2.reg.get_flag RegFlag.HalfCarry = true
        ↔ (a &&& 0xF) + (n &&& 0xF) + (if c then 1 else 0) > 0xF)
    ∧ ((cpu.add_no_writeback a n c).2.reg.get_flag RegFlag.Carry = true
        ↔ a + n + (if c then 1 else 0) > 0xFF) := by
  have key := get_flags_after_alu cpu.reg hf
    (decide ((a + n + (if c then 1 else 0)) &&& 0xFF = 0))
    false
    (decide ((a &&& 0xF) + (n &&& 0xF) + (if c then 1 else 0) > 0xF))
    (decide (a + n + (if c then 1 else 0) > 0xFF))
  refine ⟨?_, ?_, ?_, ?_, ?_⟩ <;> simp only [Cpu.add_no_writeback]
  · rw [and_0xFF_eq_mod]
  · rw [key.1, decide_eq_true_eq, and_0xFF_eq_mod]
  · rw [key.2.1]
  · rw [key.2.2.1, decide_eq_true_eq]
  · rw [key.2.2.2, decide_eq_true_eq]

theorem add_no_writeback_flag_law_witness :
    ((0xFF : Nat) < 256 ∧ (1 : Nat) < 256 ∧ Cpu.new.reg.flag < 256)
    ∧ (((Cpu.new.add_no_writeback 0xFF 1 false).1
        = (0xFF + 1 + (if false then 1 else 0)) % 256)
      ∧ ((Cpu.new.add_no_writeback 0xFF 1 false).2.reg.get_flag RegFlag.Zero = true
          ↔ (0xFF + 1 + (if false then 1 else 0)) % 256 = 0)
      ∧ ((Cpu.new.add_no_writeback 0xFF 1 false).2.reg.get_flag RegFlag.Subtract = false)
      ∧ ((Cpu.new.add_no_writeback 0xFF 1 false).2.reg.get_flag RegFlag.HalfCarry = true
          ↔ (0xFF &&& 0xF) + (1 &&& 0xF) + (if false then 1 else 0) > 0xF)
      ∧ ((Cpu.new.add_no_writeback 0xFF 1 false).2.reg.get_flag RegFlag.Carry = true
          ↔ 0xFF + 1 + (if false then 1 else 0) > 0xFF)) :=
  ⟨⟨by decide, by decide, by decide⟩,
    add_no_writeback_flag_law Cpu.new 0xFF 1 false (by decide) (by decide) (by decide)⟩

/-! ## C1: 8-bit subtraction flag law -/

/-- C1 (counterexample): at a = 0, n = 0, carry_in = 1 the claim demands
result (0 - 0 - 1) mod 256 = 255 with Carry (0 < 0 + 1) and HalfCarry
(0 < 0 + 1) set; the code instead adds the carry-in to the minuend
(`xw = x + carry`), producing result 1 with Carry and HalfCarry clear. -/
theorem sub_claim_counterexample :
    ¬ (((Cpu.new.sub_no_writeback 0 0 true).1 = 255)
      ∧ ((Cpu.new.sub_no_writeback 0 0 true).2.reg.get_flag RegFlag.Carry = true)
      ∧ ((Cpu.new.sub_no_writeback 0 0 true).2.reg.get_flag RegFlag.HalfCarry = true)) := by
  decide

/-- C1 (amended): `sub_no_writeback` (on which `sub_with_carry` and `sub`
are built) adds the carry-in to the minuend: result
`(a + carry_in - n) mod 256` (wrapping), Zero iff the result byte is 0,
Subtract always true, HalfCarry iff `(a + carry_in) & 0xF < n & 0xF`,
Carry iff `a + carry_in < n` or the 16-bit intermediate `a + carry_in - n`
equals 256 (only at a = 255, carry_in = 1, n = 0), all computed with
wrapping modulo-2^16 intermediates. -/
theorem sub_no_writeback_flag_law (cpu : Cpu) (a n : Nat) (c : Bool)
    (ha : a < 256) (hn : n < 256) (hf : cpu.reg.flag < 256) :
    ((cpu.sub_no_writeback a n c).1 = (a + (if c then 1 else 0) + 256 - n) % 256)
    ∧ ((cpu.sub_no_writeback a n c).2.reg.get_flag RegFlag.Zero = true
        ↔ (a + (if c then 1 else 0) + 256 - n) % 256 = 0)
    ∧ ((cpu.sub_no_writeback a n c).2.reg.get_flag RegFlag.Subtract = true)
    ∧ ((cpu.sub_no_writeback a n c).2.reg.get_flag RegFlag.HalfCarry = true
        ↔ ((a + (if c then 1 else 0)) &&& 0xF) < (n &&& 0xF))
    ∧ ((cpu.sub_no_writeback a n c).2.reg.get_flag RegFlag.Carry = true
        ↔ (a + (if c then 1 else 0) < n
            ∨ (a + (if c then 1 else 0) = 256 ∧ n = 0))) := by
  have hcc : (if c then (1 : Nat) else 0) ≤ 1 := by cases c <;> simp
  have key := get_flags_after_alu cpu.reg hf
    (decide (wsub16 (a + (if c then 1 else 0)) n &&& 0xFF = 0))
    true
    (decide (wsub16 ((a + (if c then 1 else 0)) &&& 0xF) (n &&& 0xF) > 0xF))
    (decide (wsub16 (a + (if c then 1 else 0)) n > 0xFF))
  refine ⟨?_, ?_, ?_, ?_, ?_⟩ <;> simp only [Cpu.sub_no_writeback]
  · rw [and_0xFF_eq_mod]
    unfold wsub16
    have harith : ∀ cc ≤ 1, (a + cc + 0x10000 - n) % 0x10000 % 256
        = (a + cc + 256 - n) % 256 := by
      intro cc h2
      omega
    exact harith _ hcc
  · rw [key.1, decide_eq_true_eq, and_0xFF_eq_mod]
    unfold wsub16
    have harith : ∀ cc ≤ 1, ((a + cc + 0x10000 - n) % 0x10000 % 256 = 0
        ↔ (a + cc + 256 - n) % 256 = 0) := by
      intro cc h2
      omega
    exact harith _ hcc
  · rw [key.2.1]
  · rw [key.2.2.1, decide_eq_true_eq]
    unfold wsub16
    rw [and_0xF_eq_mod (a + (if c then 1 else 0)), and_0xF_eq_mod n]
    have harith : ∀ cc ≤ 1, (((a + cc) % 16 + 0x10000 - n % 16) % 0x10000 > 0xF
        ↔ (a + cc) % 16 < n % 16) := by
      intro cc h2
      omega
    exact harith _ hcc
  · rw [key.2.2.2, decide_eq_true_eq]
    unfold wsub16
    have harith : ∀ cc ≤ 1, ((a + cc + 0x10000 - n) % 0x10000 > 0xFF
        ↔ (a + cc < n ∨ (a + cc = 256 ∧ n = 0))) := by
      intro cc h2
      omega
    exact harith _ hcc

theorem sub_no_writeback_flag_law_witness :
    ((5 : Nat) < 256 ∧ (3 : Nat) < 256 ∧ Cpu.new.reg.flag < 256)
    ∧ (((Cpu.new.sub_no_writeback 5 3 true).1 = (5 + (if true then 1 else 0) + 256 - 3) % 256)
      ∧ ((Cpu.new.sub_no_writeback 5 3 true).2.reg.get_flag RegFlag.Zero = true
          ↔ (5 + (if true then 1 else 0) + 256 - 3) % 256 = 0)
      ∧ ((Cpu.new.sub_no_writeback 5 3 true).2.reg.get_flag RegFlag.Subtract = true)
      ∧ ((Cpu.new.sub_no_writeback 5 3 true).2.reg.get_flag RegFlag.HalfCarry = true
          ↔ ((5 + (if true then 1 else 0)) &&& 0xF) < (3 &&& 0xF))
      ∧ ((Cpu.new.sub_no_writeback 5 3 true).2.reg.get_flag RegFlag.Carry = true
          ↔ (5 + (if true then 1 else 0) < 3
              ∨ (5 + (if true then 1 else 0) = 256 ∧ (3 : Nat) = 0)))) :=
  ⟨⟨by decide, by decide, by decide⟩,
    sub_no_writeback_flag_law Cpu.new 5 3 true (by decide) (by decide) (by decide)⟩

theorem dec_u16_clamps_preserves_flags_witness :
    ((Register.BC = Register.BC ∨ Register.BC = Register.DE ∨ Register.BC = Register.HL
        ∨ Register.BC = Register.SP)
      ∧ Cpu.new.reg.b < 256 ∧ Cpu.new.reg.c < 256 ∧ Cpu.new.reg.d < 256
      ∧ Cpu.new.reg.e < 256 ∧ Cpu.new.reg.h < 256 ∧ Cpu.new.reg.l < 256
      ∧ Cpu.new.reg.sp < 65536)
    ∧ (((Cpu.new.dec_u16 Register.BC).reg.read_u16 Register.BC
        = if Cpu.new.reg.read_u16 Register.BC = 0 then 0
          else Cpu.new.reg.read_u16 Register.BC - 1)
      ∧ ((Cpu.new.dec_u16 Register.BC).reg.flag = Cpu.new.reg.flag)) :=
  ⟨⟨Or.inl rfl, by decide, by decide, by decide, by decide, by decide, by decide, by decide⟩,
    dec_u16_clamps_preserves_flags Cpu.new Register.BC (Or.inl rfl)
      (by decide) (by decide) (by decide) (by decide) (by decide) (by decide) (by decide)⟩

/-! ## C8: stepping while halted or stopped -/

/-- C8: one step while Halted or Stopped performs no instruction: it
returns 0 cycles with the whole CPU (register file, address space, clock,
state) unchanged; the stuck warning is emitted exactly when interrupts
are disabled, and in every case the step returns normally (no abort). -/
theorem do_instr_halted_stopped_noop (cpu : Cpu)
    (h : cpu.state = CpuState.Halted ∨ cpu.state = CpuState.Stopped) :
    cpu.do_instr = some (0, cpu, if cpu.intlevel then [] else [Diag.stuckWarning]) := by
  rcases h with h | h <;>
    · unfold Cpu.do_instr
      rw [h]

theorem do_instr_halted_stopped_noop_witness :
    (stuck_cpu.state = CpuState.Halted ∨ stuck_cpu.state = CpuState.Stopped)
    ∧ stuck_cpu.do_instr
        = some (0, stuck_cpu, if stuck_cpu.intlevel then [] else [Diag.stuckWarning]) :=
  ⟨Or.inl rfl, do_instr_halted_stopped_noop stuck_cpu (Or.inl rfl)⟩

/-! ## C9: waking from Halted by interrupt delivery -/

-- A step from a Running state whose next opcode is 0x00 executes NOP:
-- PC advances by one, the clock advances by the cycle cost 4.
theorem do_instr_nop (c : Cpu) (hs : c.state = CpuState.Running)
    (hn : c.ram.read c.reg.pc = 0x00) :
    c.do_instr = some (4,
      { c with
        reg := { c.reg with pc := (c.reg.pc + 1) % 0x10000 },
        clock := c.clock + 4 }, []) := by
  have hparse : Instr.parse c.reg c.ram
      = (⟨0x00, [], 4⟩, { c.reg with pc := (c.reg.pc + 1) % 0x10000 }, []) := by
    simp only [Instr.parse, RegData.advance_pc]
    rw [hn]
    norm_num
  unfold Cpu.do_instr
  rw [hs, hparse]
  rfl

/-- C9 (spec-modelled delivery): delivering a vertical-blank interrupt to
a Halted CPU with interrupts enabled returns the state to Running, and
the next step then executes an instruction (here NOP) and returns its
nonzero cycle cost 4 instead of 0; by contrast a step taken while still
Halted returns 0 cycles with the CPU (state included) unchanged, so
within the core nothing but the delivery exits the halted state. -/
theorem halted_wakes_on_vblank (cpu : Cpu) (h : cpu.state = CpuState.Halted)
    (hi : cpu.intlevel = true) (hn : cpu.ram.read cpu.reg.pc = 0x00) :
    ((cpu.deliver_interrupt Interrupt.VBlank).state = CpuState.Running)
    ∧ ((cpu.deliver_interrupt Interrupt.VBlank).do_instr
        = some (4,
          { cpu with
            state := CpuState.Running,
            reg := { cpu.reg with pc := (cpu.reg.pc + 1) % 0x10000 },
            clock := cpu.clock + 4 }, []))
    ∧ ((4 : Nat) ≠ 0)
    ∧ (cpu.do_instr = some (0, cpu, [])) := by
  have hd : cpu.deliver_interrupt Interrupt.VBlank
      = { cpu with state := CpuState.Running } := by
    unfold Cpu.deliver_interrupt
    rw [h]
  refine ⟨by rw [hd], ?_, by decide, ?_⟩
  · rw [hd]
    exact do_instr_nop { cpu with state := CpuState.Running } rfl hn
  · unfold Cpu.do_instr
    rw [h]
    simp [hi]

theorem halted_wakes_on_vblank_witness :
    (halted_cpu.state = CpuState.Halted ∧ halted_cpu.intlevel = true
      ∧ halted_cpu.ram.read halted_cpu.reg.pc = 0x00)
    ∧ (((halted_cpu.deliver_interrupt Interrupt.VBlank).state = CpuState.Running)
      ∧ ((halted_cpu.deliver_interrupt Interrupt.VBlank).do_instr
          = some (4,
            { halted_cpu with
              state := CpuState.Running,
              reg := { halted_cpu.reg with pc := (halted_cpu.reg.pc + 1) % 0x10000 },
              clock := halted_cpu.clock + 4 }, []))
      ∧ ((4 : Nat) ≠ 0)
      ∧ (halted_cpu.do_instr = some (0, halted_cpu, []))) :=
  ⟨⟨rfl, rfl, by decide⟩, halted_wakes_on_vblank halted_cpu rfl rfl (by decide)⟩

end GBoy
